import Mathlib

/-! Correction-data handoff and source arbitration (GNSS.h / LBAND.h)

A shallow embedding of the `GNSS` class of `software/GNSS.h` (handoff queue,
`inject`, `poll`, `checkSpartanUseSourceCfg`) and of `LBAND::onRXMPMPdata`
of `software/LBAND.h`.

Conventions of the embedding
* `long` is the 32-bit signed integer of the target (ESP32): values are `Int`,
  every conversion or arithmetic result is passed through `toLong`.
* Calls into the receiver library and the clock are answered by explicit
  arguments (the value read by `millis()`, the result of `setVal8`, of
  `pushRawData`, of `new`), so each function is a pure function of the object
  state and of those answers.
* Every function returns, next to the new state, the list of observable
  actions it performed (`Event`), in program order.  Logging is not recorded.
* Sequences of calls are folds of the single-call functions: `ArbState` adds the
  use-source register of the receiver, `World` adds the heap allocator and the
  trace of all events.  Operations are taken one at a time.
-/

namespace HPG

/-! ## Machine integers -/

/-- Conversion of an integer value to the 32-bit signed `long` (two's complement wrap). -/
def toLong (x : Int) : Int := (x + 2147483648) % 4294967296 - 2147483648

/-- A byte (`uint8_t`). -/
abbrev Byte := Fin 256

/-! ## Constants and the source enumeration (GNSS.h 22-28, 110) -/

/-- Source: `const int GNSS_DETECT_RETRY = 1000`. -/
def GNSS_DETECT_RETRY : Int := 1000

/-- Source: `const int GNSS_CORRECTION_TIMEOUT = 12000`. -/
def GNSS_CORRECTION_TIMEOUT : Int := 12000

/-- Source: `typedef enum { WLAN = 0, LTE = 1, LBAND = 2, OTHER = 3, NUM_SOURCE = 3 } SOURCE`. -/
inductive SOURCE where
  | WLAN
  | LTE
  | LBAND
  | OTHER
  deriving DecidableEq, Repr

/-- The integer value of an enumerator. -/
def SOURCE.toNat : SOURCE → Nat
  | .WLAN => 0
  | .LTE => 1
  | .LBAND => 2
  | .OTHER => 3

/-- The enumerator `NUM_SOURCE = 3` (the number of entries of `ttagSource`). -/
def NUM_SOURCE : Nat := 3

/-- Source: `#define GNSS_SPARTAN_USESOURCE(source) ((source == LBAND) ? 1 : 0)`. -/
def GNSS_SPARTAN_USESOURCE (source : SOURCE) : Nat :=
  if source = SOURCE.LBAND then 1 else 0

/-! ## Messages, events and the object state -/

/-- A heap block obtained from `new uint8_t[n]`: its address and its contents. -/
structure Buffer where
  addr : Nat
  bytes : List Byte
  deriving DecidableEq, Repr

/-- Source: `typedef struct { SOURCE source; uint8_t* data; size_t size; } MSG`;
`data = none` is the `NULL` pointer. -/
structure MSG where
  source : SOURCE
  data : Option Buffer
  size : Nat
  deriving DecidableEq, Repr

/-- The bytes handed to `pushRawData(msg.data, msg.size)`: the first `size` bytes at `data`. -/
def MSG.payload (msg : MSG) : List Byte :=
  match msg.data with
  | none => []
  | some b => b.bytes.take msg.size

/-- Observable actions, in program order. -/
inductive Event where
  /-- The call `new uint8_t[n]` returned the block at `addr`. -/
  | alloc (addr : Nat)
  /-- The call `delete [] p` of the block at `addr`. -/
  | delete (addr : Nat)
  /-- The call `checkSpartanUseSourceCfg(source)`. -/
  | checkSource (source : SOURCE)
  /-- The call `setVal8(UBLOX_CFG_SPARTN_USE_SOURCE, useSource, VAL_LAYER_RAM)`. -/
  | setVal8 (useSource : Nat)
  /-- The call `pushRawData(data, size)` with these bytes. -/
  | pushRawData (bytes : List Byte)
  deriving DecidableEq, Repr

/-- The data members of `class GNSS` (GNSS.h 225-229); `queue` holds the content of the
FreeRTOS queue, oldest message first. -/
structure GNSS where
  online : Bool
  ttagNextTry : Int
  ttagSource : Fin 3 → Int
  curSource : SOURCE
  queue : List MSG

/-- The length given to `xQueueCreate( 10, sizeof( MSG ) )`. -/
def QUEUE_LENGTH : Nat := 10

/-- The constructor `GNSS()` (GNSS.h 60-68); `m` is the value read by `millis()`. -/
def GNSS.init (m : Nat) : GNSS :=
  let ttagNextTry := toLong m
  { online := false
    ttagNextTry := ttagNextTry
    ttagSource := fun _ => toLong (ttagNextTry - GNSS_CORRECTION_TIMEOUT)
    curSource := SOURCE.OTHER
    queue := [] }

/-! ## Source arbitration (GNSS.h 173-192) -/

/-- Source: `#define TIMEOUT_SRC(now, src) ((src < NUM_SOURCE) ?
(signed long)((now) - ttagSource[src]) > GNSS_CORRECTION_TIMEOUT : true)`. -/
def TIMEOUT_SRC (ttagSource : Fin 3 → Int) (now : Int) (src : SOURCE) : Bool :=
  if h : src.toNat < NUM_SOURCE then
    decide (toLong (now - ttagSource ⟨src.toNat, h⟩) > GNSS_CORRECTION_TIMEOUT)
  else true

/-- Source: `void checkSpartanUseSourceCfg(SOURCE source)`.  `m1` and `m2` are the values read by the
two calls of `millis()`, `ok` is the result `setVal8` gives if it is called. -/
def checkSpartanUseSourceCfg (g : GNSS) (source : SOURCE) (m1 m2 : Nat) (ok : Bool) :
    GNSS × List Event :=
  if h : source.toNat < NUM_SOURCE then
    let now := toLong m1
    let g1 := { g with ttagSource := Function.update g.ttagSource ⟨source.toNat, h⟩ (toLong m2) }
    let useSource := GNSS_SPARTAN_USESOURCE source
    if GNSS_SPARTAN_USESOURCE g1.curSource ≠ useSource ∧
        (g1.curSource = SOURCE.LBAND ∨ TIMEOUT_SRC g1.ttagSource now g1.curSource = true) then
      if ok then
        ({ g1 with curSource := source }, [Event.setVal8 useSource])
      else
        (g1, [Event.setVal8 useSource])
    else (g1, [])
  else (g, [])

/-- The entry of `ttagSource` belonging to the active source, when it has one
(`curSource < NUM_SOURCE`). -/
def GNSS.ttagCur (g : GNSS) : Int :=
  if h : g.curSource.toNat < NUM_SOURCE then g.ttagSource ⟨g.curSource.toNat, h⟩ else 0

/-! ## The handoff queue and `inject` (GNSS.h 61, 114-135) -/

/-- Modelled from the spec: the FreeRTOS call `xQueueSendToBack(queue, &msg, 0)` (the queue
implementation is a library, not part of the sources).  Section 4.1: fixed capacity, a
non-blocking enqueue that fails when the queue is full, otherwise the message is copied to
the back.  `none` stands for a result other than `pdPASS`. -/
def xQueueSendToBack (queue : List MSG) (msg : MSG) : Option (List MSG) :=
  if queue.length < QUEUE_LENGTH then some (queue ++ [msg]) else none

/-- Modelled from the spec: the FreeRTOS call `xQueueReceive(queue, &msg, 0)`.  Section 4.1:
returns the oldest buffer in FIFO order, or nothing if the queue is empty; never blocks. -/
def xQueueReceive (queue : List MSG) : Option (MSG × List MSG) :=
  match queue with
  | [] => none
  | msg :: rest => some (msg, rest)

/-- The events of `delete [] p`: nothing for the `NULL` pointer. -/
def deleteArr (p : Option Buffer) : List Event :=
  match p with
  | none => []
  | some b => [Event.delete b.addr]

/-- What `inject` leaves behind: the returned `size_t`, the caller's `msg` (passed by
reference), the object state and the events. -/
structure InjectResult where
  ret : Nat
  msg : MSG
  g : GNSS
  events : List Event

/-- Source: `size_t inject(MSG& msg)` (GNSS.h 114-122). -/
def inject (g : GNSS) (msg : MSG) : InjectResult :=
  match xQueueSendToBack g.queue msg with
  | some q => { ret := msg.size, msg := msg, g := { g with queue := q }, events := [] }
  | none =>
    { ret := 0, msg := { msg with data := none }, g := g, events := deleteArr msg.data }

/-- The C library `memcpy(dst + off, src, n)` on the contents of two objects: `dst` with the
`n` bytes from offset `off` replaced by the first `n` bytes of `src`.  It is the C function
when `n ≤ src.length` and `off + n ≤ dst.length`; the theorems state these bounds. -/
def memcpy (dst : List Byte) (off : Nat) (src : List Byte) (n : Nat) : List Byte :=
  dst.take off ++ src.take n ++ dst.drop (off + n)

/-- Source: `size_t inject(const uint8_t* ptr, size_t len, SOURCE src)` (GNSS.h 124-135).
`ptr` is the content of the memory at `ptr`, `addr` the result of `new uint8_t[len]`
(`none` for `NULL`); a fresh block is modelled as `len` zero bytes. -/
def injectBytes (g : GNSS) (ptr : List Byte) (len : Nat) (src : SOURCE) (addr : Option Nat) :
    InjectResult :=
  match addr with
  | some a =>
    let data := memcpy (List.replicate len 0) 0 ptr len
    let msg : MSG := { source := src, data := some { addr := a, bytes := data }, size := len }
    let r := inject g msg
    { r with events := Event.alloc a :: r.events }
  | none =>
    { ret := 0, msg := { source := src, data := none, size := len }, g := g, events := [] }

/-! ## Detection and `poll` (GNSS.h 70-108, 137-171) -/

/-- The answers of the collaborators of `detect()`: the result of `begin`, the value of
`GNSS_CHECK_OK` after the fifteen configuration steps, the key bytes stored by
`Config.getValue` (`keySize` is their number) and the result of `new` in the `inject` of
the key. -/
structure DetectEnv where
  beginOk : Bool
  configOk : Bool
  key : List Byte
  keyAddr : Option Nat

/-- Source: `bool detect()` (GNSS.h 70-108), as far as it touches the data members: `online`
and, through `inject(key, keySize, OTHER)`, the queue. -/
def detect (g : GNSS) (d : DetectEnv) : Bool × GNSS × List Event :=
  if d.beginOk then
    let g1 := { g with online := d.configOk }
    if d.configOk then
      if d.key.length > 0 then
        let r := injectBytes g1 d.key d.key.length SOURCE.OTHER d.keyAddr
        (true, r.g, r.events)
      else (true, g1, [])
    else (false, g1, [])
  else (false, g, [])

/-- The answers used while one dequeued message is processed: the two `millis()` readings
and the `setVal8` result of `checkSpartanUseSourceCfg`, and the result of `pushRawData`. -/
structure Step where
  m1 : Nat
  m2 : Nat
  setValOk : Bool
  pushOk : Bool

/-- The answers used by one call of `poll()`: the `millis()` reading at entry, the answers
for `detect()`, and the answers for the `k`-th dequeued message (`k = 0, 1, ...`). -/
structure PollEnv where
  now : Nat
  det : DetectEnv
  step : Nat → Step

/-- The body of the `while` loop of `poll()` (GNSS.h 153-166) for the dequeued `msg`. -/
def pollBody (g : GNSS) (msg : MSG) (s : Step) : GNSS × List Event :=
  if g.online then
    let r :=
      if msg.source ≠ SOURCE.OTHER then
        let c := checkSpartanUseSourceCfg g msg.source s.m1 s.m2 s.setValOk
        (c.1, Event.checkSource msg.source :: c.2)
      else (g, [])
    ({ r.1 with online := s.pushOk },
      r.2 ++ [Event.pushRawData msg.payload] ++ deleteArr msg.data)
  else (g, deleteArr msg.data)

/-- The loop `while (xQueueReceive(queue, &msg, 0) == pdPASS) { ... }` of `poll()`
(GNSS.h 152-167), by recursion on the queue content `q` (which is `g.queue`): each turn
receives the oldest message, leaving `rest` in the queue, and runs the body; the loop ends
when the queue is empty.  `k` counts the turns. -/
def pollLoop (step : Nat → Step) : List MSG → Nat → GNSS → GNSS × List Event
  | [], _, g => (g, [])
  | msg :: rest, k, g =>
    let b := pollBody { g with queue := rest } msg (step k)
    let r := pollLoop step rest (k + 1) b.1
    (r.1, b.2 ++ r.2)

/-- Source: `void poll(void)` (GNSS.h 137-171).  `checkUblox()` and `checkCallbacks()` do not
touch the data members. -/
def poll (g : GNSS) (env : PollEnv) : GNSS × List Event :=
  let now := toLong env.now
  let d : GNSS × List Event :=
    if g.ttagNextTry ≤ now then
      let g0 := { g with ttagNextTry := toLong (now + GNSS_DETECT_RETRY) }
      if !g0.online then
        let r := detect g0 env.det
        (r.2.1, r.2.2)
      else (g0, [])
    else (g, [])
  if d.1.online then
    let r := pollLoop env.step d.1.queue 0 d.1
    (r.1, d.2 ++ r.2)
  else d

/-- The byte sequences handed to `pushRawData`, in order. -/
def pushed (es : List Event) : List (List Byte) :=
  es.filterMap fun e => match e with
    | Event.pushRawData b => some b
    | _ => none

/-- The sources `checkSpartanUseSourceCfg` was called with, in order. -/
def checked (es : List Event) : List SOURCE :=
  es.filterMap fun e => match e with
    | Event.checkSource s => some s
    | _ => none

/-- The modes written with `setVal8(UBLOX_CFG_SPARTN_USE_SOURCE, ...)`, in order. -/
def written (es : List Event) : List Nat :=
  es.filterMap fun e => match e with
    | Event.setVal8 m => some m
    | _ => none

/-- The addresses released with `delete []`, in order. -/
def deleted (es : List Event) : List Nat :=
  es.filterMap fun e => match e with
    | Event.delete a => some a
    | _ => none

/-- The addresses of the (non-`NULL`) buffers of a list of messages, in order. -/
def buffers (q : List MSG) : List Nat :=
  q.filterMap fun m => m.data.map Buffer.addr

/-- The sources of the arbitration-relevant messages of a list (those `poll` passes to
`checkSpartanUseSourceCfg`: `msg.source != OTHER`), in order. -/
def relevant (q : List MSG) : List SOURCE :=
  q.filterMap fun m => if m.source ≠ SOURCE.OTHER then some m.source else none

/-- Successive calls of `inject(MSG&)` for the messages of a list; the returned values are
collected in order. -/
def injectAll : GNSS → List MSG → GNSS × List Nat
  | g, [] => (g, [])
  | g, msg :: rest =>
    let r := inject g msg
    let t := injectAll r.g rest
    (t.1, r.ret :: t.2)

/-- The messages obtained by `n` successive calls of `xQueueReceive` (a call on the empty
queue yields nothing), and the queue left. -/
def receiveN : Nat → List MSG → List MSG × List MSG
  | 0, q => ([], q)
  | n + 1, q =>
    match xQueueReceive q with
    | none => ([], q)
    | some (msg, rest) =>
      let t := receiveN n rest
      (msg :: t.1, t.2)

/-! ## Frame reconstruction (LBAND.h 116-135) -/

/-- Modelled from the spec: the type `UBX_RXM_PMP_message_data_t` of the receiver library
(its declaration is not part of the sources).  Section 4.3: a sub-message with a frame-start
field, a 16-bit length split across two 8-bit fields, an embedded payload and a trailing
2-byte checksum; the members are those `onRXMPMPdata` names, in the order of the frame
(sync, class, ID, length, payload, checksum). -/
structure UBX_RXM_PMP_message_data_t where
  sync1 : Byte
  sync2 : Byte
  cls : Byte
  ID : Byte
  lengthLSB : Byte
  lengthMSB : Byte
  payload : List Byte
  checksumA : Byte
  checksumB : Byte

/-- The bytes of the object from the member `sync1` to its end (what `&pmpData->sync1`
points to). -/
def UBX_RXM_PMP_message_data_t.fromSync1 (p : UBX_RXM_PMP_message_data_t) : List Byte :=
  [p.sync1, p.sync2, p.cls, p.ID, p.lengthLSB, p.lengthMSB] ++ p.payload ++
    [p.checksumA, p.checksumB]

/-- The bytes of the object from the member `checksumA` to its end (what
`&pmpData->checksumA` points to). -/
def UBX_RXM_PMP_message_data_t.fromChecksumA (p : UBX_RXM_PMP_message_data_t) : List Byte :=
  [p.checksumA, p.checksumB]

/-- The value of `uint16_t size = ((uint16_t)pmpData->lengthMSB << 8) |
(uint16_t)pmpData->lengthLSB` (LBAND.h 121). -/
def pmpSize (p : UBX_RXM_PMP_message_data_t) : Nat :=
  ((p.lengthMSB.val <<< 8) ||| p.lengthLSB.val) % 65536

/-- The message `onRXMPMPdata` has built when it calls `Gnss.inject(msg)` (LBAND.h 120-127);
`a` is the address returned by `new uint8_t[msg.size]`, a fresh block is modelled as
`msg.size` zero bytes. -/
def pmpMsg (p : UBX_RXM_PMP_message_data_t) (a : Nat) : MSG :=
  let size := pmpSize p
  let d0 := List.replicate (size + 8) (0 : Byte)
  let d1 := memcpy d0 0 p.fromSync1 (size + 6)
  let d2 := memcpy d1 (size + 6) p.fromChecksumA 2
  { source := SOURCE.LBAND, data := some { addr := a, bytes := d2 }, size := size + 8 }

/-- Source: `static void onRXMPMPdata(UBX_RXM_PMP_message_data_t *pmpData)` (LBAND.h 116-135),
acting on the global `Gnss`.  `pmpData = none` is the `NULL` pointer, `addr` the result of
`new uint8_t[msg.size]`. -/
def onRXMPMPdata (g : GNSS) (pmpData : Option UBX_RXM_PMP_message_data_t)
    (addr : Option Nat) : GNSS × List Event :=
  match pmpData with
  | none => (g, [])
  | some p =>
    match addr with
    | some a =>
      let r := inject g (pmpMsg p a)
      (r.g, Event.alloc a :: r.events)
    | none => (g, [])

/-! ## Sequences of calls: the receiver register and the heap -/

/-- The addresses returned by `new`, in order. -/
def allocated (es : List Event) : List Nat :=
  es.filterMap fun e => match e with
    | Event.alloc a => some a
    | _ => none

/-- One call of `checkSpartanUseSourceCfg`: its argument and the answers it gets (the two
`millis()` readings and the result of `setVal8` if it is called). -/
structure ArbCall where
  source : SOURCE
  m1 : Nat
  m2 : Nat
  ok : Bool

/-- The object together with the receiver's use-source register (`CFG-SPARTN-USE_SOURCE`)
and the events so far. -/
structure ArbState where
  g : GNSS
  reg : Nat
  events : List Event

/-- The register after a call of `setVal8` with the modes `ws` (at most one per arbitration
call): an accepted write stores its mode, a rejected write leaves the register alone. -/
def regAfter (reg : Nat) (ws : List Nat) (ok : Bool) : Nat :=
  match ws with
  | [] => reg
  | m :: _ => if ok then m else reg

/-- One call of `checkSpartanUseSourceCfg` against the receiver register. -/
def ArbState.call (st : ArbState) (c : ArbCall) : ArbState :=
  let r := checkSpartanUseSourceCfg st.g c.source c.m1 c.m2 c.ok
  { g := r.1, reg := regAfter st.reg (written r.2) c.ok, events := st.events ++ r.2 }

/-- A sequence of calls of `checkSpartanUseSourceCfg`. -/
def ArbState.run : ArbState → List ArbCall → ArbState
  | st, [] => st
  | st, c :: cs => ArbState.run (st.call c) cs

/-- The state after the constructor (at clock reading `m`): the register holds its start
value 0, nothing has happened. -/
def ArbState.init (m : Nat) : ArbState := { g := GNSS.init m, reg := 0, events := [] }

/-- An operation on the object: a producer call `inject(ptr, len, src)`, the callback
`onRXMPMPdata(pmpData)`, or `poll()`.  `allocOk` tells whether `new` succeeds. -/
inductive Op where
  | inject (ptr : List Byte) (len : Nat) (src : SOURCE) (allocOk : Bool)
  | rxmpmp (pmpData : Option UBX_RXM_PMP_message_data_t) (allocOk : Bool)
  | poll (env : PollEnv)

/-- The object, the heap allocator (every successful `new` returns the next unused block
number `next`, so a number names one allocation) and the events so far. -/
structure World where
  g : GNSS
  next : Nat
  trace : List Event

/-- The result of a `new` in the world `w`. -/
def World.fresh (w : World) (allocOk : Bool) : Option Nat :=
  if allocOk then some w.next else none

/-- The answers of a `poll` in the world `w`: the block for the key injected by `detect()`
comes from the allocator (`env.det.keyAddr` only tells whether that `new` succeeds). -/
def World.pollEnv (w : World) (env : PollEnv) : PollEnv :=
  { env with det := { env.det with keyAddr := w.fresh env.det.keyAddr.isSome } }

/-- One operation. -/
def World.step (w : World) : Op → World
  | Op.inject ptr len src allocOk =>
    let r := injectBytes w.g ptr len src (w.fresh allocOk)
    { g := r.g, next := w.next + 1, trace := w.trace ++ r.events }
  | Op.rxmpmp pmpData allocOk =>
    let r := onRXMPMPdata w.g pmpData (w.fresh allocOk)
    { g := r.1, next := w.next + 1, trace := w.trace ++ r.2 }
  | Op.poll env =>
    let r := poll w.g (w.pollEnv env)
    { g := r.1, next := w.next + 1, trace := w.trace ++ r.2 }

/-- A sequence of operations. -/
def World.run : World → List Op → World
  | w, [] => w
  | w, op :: ops => World.run (w.step op) ops

/-- The world after the constructor (at clock reading `m`). -/
def World.init (m : Nat) : World := { g := GNSS.init m, next := 0, trace := [] }

/-- The heap discipline, on the block numbers: `allocs` are the blocks handed out so far
(all below `next`, none twice), and the released blocks `frees` together with the blocks
`queued` in the queue slots are exactly the allocated blocks, each once. -/
def Balanced (next : Nat) (allocs frees queued : List Nat) : Prop :=
  (∀ a ∈ allocs, a < next) ∧ allocs.Nodup ∧ List.Perm (frees ++ queued) allocs

/-- What a producer does with the block `a` it may allocate: nothing at all (no block), or
the block is allocated and queued, or the block is allocated and released at once. -/
def Produces (a : Nat) (eAlloc eFree queued queued2 : List Nat) : Prop :=
  (eAlloc = [] ∧ eFree = [] ∧ queued2 = queued) ∨
  (eAlloc = [a] ∧ eFree = [] ∧ queued2 = queued ++ [a]) ∨
  (eAlloc = [a] ∧ eFree = [a] ∧ queued2 = queued)

/-! ## Concrete states and answers used in the examples -/

/-- An online object whose active source is `LTE`, every source last seen at 1000 ms. -/
def stLTE : GNSS :=
  { online := true, ttagNextTry := 0, ttagSource := fun _ => 1000,
    curSource := SOURCE.LTE, queue := [] }

/-- An online object whose active source is `WLAN`, every source last seen at 1000 ms. -/
def stWLAN : GNSS := { stLTE with curSource := SOURCE.WLAN }

/-- An online object whose active source is `LBAND`, every source last seen at 1000 ms. -/
def stLBAND : GNSS := { stLTE with curSource := SOURCE.LBAND }

/-- A message from `WLAN` holding two bytes at address 1. -/
def msgA : MSG := { source := SOURCE.WLAN, data := some { addr := 1, bytes := [10, 11] }, size := 2 }

/-- A message from `LBAND` holding three bytes at address 2. -/
def msgB : MSG :=
  { source := SOURCE.LBAND, data := some { addr := 2, bytes := [20, 21, 22] }, size := 3 }

/-- A message from `OTHER` holding one byte at address 3. -/
def msgC : MSG := { source := SOURCE.OTHER, data := some { addr := 3, bytes := [30] }, size := 1 }

/-- A message from `LTE` holding one byte at address 11. -/
def msgD : MSG := { source := SOURCE.LTE, data := some { addr := 11, bytes := [40] }, size := 1 }

/-- Ten messages from `LTE`, at addresses 0 to 9: a full queue. -/
def fullQueue : List MSG :=
  (List.range 10).map fun i =>
    { source := SOURCE.LTE, data := some { addr := i, bytes := [Fin.ofNat i] }, size := 1 }

/-- Answers for a `poll` at 20000 ms: no receiver detected, every write and every push
succeeds. -/
def envOk : PollEnv :=
  { now := 20000
    det := { beginOk := false, configOk := false, key := [], keyAddr := none }
    step := fun _ => { m1 := 20000, m2 := 20000, setValOk := true, pushOk := true } }

/-- Answers for a `poll` at 20000 ms in which the push of the second dequeued message fails. -/
def envFail : PollEnv :=
  { envOk with
    step := fun k => { m1 := 20000, m2 := 20000, setValOk := true, pushOk := decide (k ≠ 1) } }

/-- A sub-message declaring 3 payload bytes, held in an object with room for 5. -/
def pmpEx : UBX_RXM_PMP_message_data_t :=
  { sync1 := 0xB5, sync2 := 0x62, cls := 2, ID := 0x72, lengthLSB := 3, lengthMSB := 0,
    payload := [1, 2, 3, 4, 5], checksumA := 9, checksumB := 10 }

/-- An online object whose active source is `WLAN`, last seen at 1000 ms, while `LTE` was
seen at 13000 ms. -/
def stStale : GNSS := { stWLAN with ttagSource := fun i => if i = 1 then 13000 else 1000 }

/-- An online object whose active source is `WLAN`, last seen at -100 ms (a `long` reading
shortly before the counter passes zero). -/
def stOld : GNSS := { stWLAN with ttagSource := fun _ => -100 }

/-- Three calls of the arbitration after start-up, none from `LBAND`: WLAN at 100 ms, OTHER
at 150 ms, LTE at 200 ms, every write accepted. -/
def callsTerrestrial : List ArbCall :=
  [{ source := SOURCE.WLAN, m1 := 100, m2 := 100, ok := true },
   { source := SOURCE.OTHER, m1 := 150, m2 := 150, ok := true },
   { source := SOURCE.LTE, m1 := 200, m2 := 200, ok := true }]

/-- Answers for a `poll` at 20000 ms in which the receiver is detected and configured, a
two-byte key is injected, and every write and push succeeds. -/
def envDetect : PollEnv :=
  { envOk with det := { beginOk := true, configOk := true, key := [7, 8], keyAddr := some 0 } }

/-- A run touching every path: two producers fill the queue of the offline object, a failed
allocation, a `poll` that detects the receiver, injects the key and drains, then a full
queue (eleven injections) and a `poll` whose second push fails. -/
def opsAll : List Op :=
  [Op.inject [1, 2] 2 SOURCE.LTE true, Op.rxmpmp (some pmpEx) true,
   Op.inject [3] 1 SOURCE.WLAN false, Op.poll envDetect] ++
  List.replicate 11 (Op.inject [5] 1 SOURCE.LTE true) ++ [Op.poll envFail]

/-! ## Arbitration: theorems -/

/-- Distinct enumerators have distinct values. -/
theorem SOURCE.toNat_inj (a b : SOURCE) (h : a.toNat = b.toNat) : a = b := by
  cases a <;> cases b <;> first | rfl | (exact absurd h (by decide))

/-- The time-out test for the active source does not see the time stamp just written for a
different source. -/
theorem TIMEOUT_SRC_update (t : Fin 3 → Int) (now v : Int) (src cur : SOURCE)
    (h : src.toNat < NUM_SOURCE) (hne : src ≠ cur) :
    TIMEOUT_SRC (Function.update t ⟨src.toNat, h⟩ v) now cur = TIMEOUT_SRC t now cur := by
  unfold TIMEOUT_SRC
  split
  · rename_i hc
    have hidx : (⟨cur.toNat, hc⟩ : Fin 3) ≠ ⟨src.toNat, h⟩ := by
      intro he
      exact hne (SOURCE.toNat_inj cur src (congrArg Fin.val he)).symm
    rw [Function.update_noteq hidx]
  · rfl

/-- Sources of different modes are different sources. -/
theorem ne_of_mode_ne (a b : SOURCE)
    (h : GNSS_SPARTAN_USESOURCE a ≠ GNSS_SPARTAN_USESOURCE b) : a ≠ b := by
  intro he
  exact h (by rw [he])

/-- What `checkSpartanUseSourceCfg` does for an arbitration-relevant source when line 181
permits the switch: the time stamp is written, `setVal8` is called once with the mode of the
source, and `curSource` advances exactly when the receiver accepts. -/
theorem check_permitted (g : GNSS) (s : SOURCE) (m1 m2 : Nat) (ok : Bool)
    (hs : s.toNat < NUM_SOURCE)
    (hmode : GNSS_SPARTAN_USESOURCE g.curSource ≠ GNSS_SPARTAN_USESOURCE s)
    (hperm : g.curSource = SOURCE.LBAND ∨
      TIMEOUT_SRC g.ttagSource (toLong m1) g.curSource = true) :
    checkSpartanUseSourceCfg g s m1 m2 ok =
      ({ g with ttagSource := Function.update g.ttagSource ⟨s.toNat, hs⟩ (toLong m2)
                curSource := if ok then s else g.curSource },
        [Event.setVal8 (GNSS_SPARTAN_USESOURCE s)]) := by
  have hne : s ≠ g.curSource := (ne_of_mode_ne _ _ hmode).symm
  have hT := TIMEOUT_SRC_update g.ttagSource (toLong m1) (toLong m2) s g.curSource hs hne
  unfold checkSpartanUseSourceCfg
  rw [dif_pos hs]
  simp only [hT]
  rw [if_pos ⟨hmode, hperm⟩]
  cases ok <;> simp

/-- What `checkSpartanUseSourceCfg` does for an arbitration-relevant source when line 181
does not permit the switch: only the time stamp is written. -/
theorem check_refused (g : GNSS) (s : SOURCE) (m1 m2 : Nat) (ok : Bool)
    (hs : s.toNat < NUM_SOURCE)
    (hno : ¬ (GNSS_SPARTAN_USESOURCE g.curSource ≠ GNSS_SPARTAN_USESOURCE s ∧
      (g.curSource = SOURCE.LBAND ∨
        TIMEOUT_SRC g.ttagSource (toLong m1) g.curSource = true))) :
    checkSpartanUseSourceCfg g s m1 m2 ok =
      ({ g with ttagSource := Function.update g.ttagSource ⟨s.toNat, hs⟩ (toLong m2) },
        []) := by
  unfold checkSpartanUseSourceCfg
  rw [dif_pos hs]
  by_cases hmode : GNSS_SPARTAN_USESOURCE g.curSource ≠ GNSS_SPARTAN_USESOURCE s
  · have hne : s ≠ g.curSource := (ne_of_mode_ne _ _ hmode).symm
    have hT := TIMEOUT_SRC_update g.ttagSource (toLong m1) (toLong m2) s g.curSource hs hne
    simp only [hT]
    rw [if_neg hno]
  · rw [if_neg (fun hc => hmode hc.1)]

/-- For an active source with a table entry the time-out test is the comparison of the
wrapped 32-bit difference with 12000. -/
theorem TIMEOUT_SRC_terrestrial (g : GNSS) (now : Int)
    (hcur : g.curSource = SOURCE.WLAN ∨ g.curSource = SOURCE.LTE) :
    TIMEOUT_SRC g.ttagSource now g.curSource = true ↔ toLong (now - g.ttagCur) > 12000 := by
  rcases hcur with h | h <;>
    simp [TIMEOUT_SRC, GNSS.ttagCur, h, SOURCE.toNat, NUM_SOURCE, GNSS_CORRECTION_TIMEOUT]

/-- C1. Terrestrial stickiness with the 12000 ms threshold: when the active source is WLAN
or LTE, `checkSpartanUseSourceCfg(LBAND)` calls `setVal8` (mode 1) if and only if
`now - ttagSource[curSource] > 12000` (the `long` difference), with an accepting receiver
`curSource` becomes LBAND if and only if that holds, and when the difference is at most 12000
no write is issued and `curSource` is unchanged. -/
theorem C1_terrestrial_sticky (g : GNSS) (m1 m2 : Nat) (ok : Bool)
    (hcur : g.curSource = SOURCE.WLAN ∨ g.curSource = SOURCE.LTE) :
    ((checkSpartanUseSourceCfg g SOURCE.LBAND m1 m2 ok).2 = [Event.setVal8 1] ↔
        toLong (toLong m1 - g.ttagCur) > 12000) ∧
    (ok = true →
      ((checkSpartanUseSourceCfg g SOURCE.LBAND m1 m2 ok).1.curSource = SOURCE.LBAND ↔
        toLong (toLong m1 - g.ttagCur) > 12000)) ∧
    (toLong (toLong m1 - g.ttagCur) ≤ 12000 →
      (checkSpartanUseSourceCfg g SOURCE.LBAND m1 m2 ok).2 = [] ∧
      (checkSpartanUseSourceCfg g SOURCE.LBAND m1 m2 ok).1.curSource = g.curSource) := by
  have hL : SOURCE.LBAND.toNat < NUM_SOURCE := by decide
  have hTc := TIMEOUT_SRC_terrestrial g (toLong m1) hcur
  have hmode : GNSS_SPARTAN_USESOURCE g.curSource ≠ GNSS_SPARTAN_USESOURCE SOURCE.LBAND := by
    rcases hcur with h | h <;> rw [h] <;> decide
  have hnl : g.curSource ≠ SOURCE.LBAND := by
    rcases hcur with h | h <;> rw [h] <;> decide
  by_cases hd : toLong (toLong m1 - g.ttagCur) > 12000
  · rw [check_permitted g SOURCE.LBAND m1 m2 ok hL hmode (Or.inr (hTc.2 hd))]
    refine ⟨?_, ?_, ?_⟩
    · simp [GNSS_SPARTAN_USESOURCE, hd]
    · intro hok
      simp [hok, hd]
    · intro hle
      omega
  · have hno : ¬ (GNSS_SPARTAN_USESOURCE g.curSource ≠ GNSS_SPARTAN_USESOURCE SOURCE.LBAND ∧
        (g.curSource = SOURCE.LBAND ∨
          TIMEOUT_SRC g.ttagSource (toLong m1) g.curSource = true)) := by
      rintro ⟨_, h | h⟩
      · exact hnl h
      · exact hd (hTc.1 h)
    rw [check_refused g SOURCE.LBAND m1 m2 ok hL hno]
    refine ⟨?_, ?_, ?_⟩
    · simp [hd]
    · intro _
      simp [hd, hnl]
    · intro _
      exact ⟨rfl, rfl⟩

/-- C1, at a concrete input: LTE active and last seen at 1000 ms, an LBAND message at
13001 ms. -/
theorem C1_terrestrial_sticky_witness :
    (stLTE.curSource = SOURCE.WLAN ∨ stLTE.curSource = SOURCE.LTE) ∧
    (((checkSpartanUseSourceCfg stLTE SOURCE.LBAND 13001 13001 true).2 = [Event.setVal8 1] ↔
        toLong (toLong (13001 : Nat) - stLTE.ttagCur) > 12000) ∧
    (true = true →
      ((checkSpartanUseSourceCfg stLTE SOURCE.LBAND 13001 13001 true).1.curSource
          = SOURCE.LBAND ↔
        toLong (toLong (13001 : Nat) - stLTE.ttagCur) > 12000)) ∧
    (toLong (toLong (13001 : Nat) - stLTE.ttagCur) ≤ 12000 →
      (checkSpartanUseSourceCfg stLTE SOURCE.LBAND 13001 13001 true).2 = [] ∧
      (checkSpartanUseSourceCfg stLTE SOURCE.LBAND 13001 13001 true).1.curSource
        = stLTE.curSource)) :=
  ⟨Or.inr rfl, C1_terrestrial_sticky stLTE 13001 13001 true (Or.inr rfl)⟩

/-- C2. Satellite is never sticky: when the active source is LBAND, for every liveness
table, every clock reading and every source `s` in {WLAN, LTE},
`checkSpartanUseSourceCfg(s)` calls `setVal8` with mode 0 and, when the receiver accepts the
write, `curSource` becomes `s`. -/
theorem C2_satellite_never_sticky (g : GNSS) (s : SOURCE) (m1 m2 : Nat) (ok : Bool)
    (hcur : g.curSource = SOURCE.LBAND) (hs : s = SOURCE.WLAN ∨ s = SOURCE.LTE) :
    (checkSpartanUseSourceCfg g s m1 m2 ok).2 = [Event.setVal8 0] ∧
    (ok = true → (checkSpartanUseSourceCfg g s m1 m2 ok).1.curSource = s) := by
  have hlt : s.toNat < NUM_SOURCE := by rcases hs with h | h <;> rw [h] <;> decide
  have hmode : GNSS_SPARTAN_USESOURCE g.curSource ≠ GNSS_SPARTAN_USESOURCE s := by
    rw [hcur]
    rcases hs with h | h <;> rw [h] <;> decide
  have hu : GNSS_SPARTAN_USESOURCE s = 0 := by rcases hs with h | h <;> rw [h] <;> rfl
  rw [check_permitted g s m1 m2 ok hlt hmode (Or.inl hcur), hu]
  refine ⟨rfl, ?_⟩
  intro hok
  simp [hok]

/-- C2, at a concrete input: LBAND active and last seen at 1000 ms, an LTE message 10 ms
later. -/
theorem C2_satellite_never_sticky_witness :
    stLBAND.curSource = SOURCE.LBAND ∧ (SOURCE.LTE = SOURCE.WLAN ∨ SOURCE.LTE = SOURCE.LTE) ∧
    (checkSpartanUseSourceCfg stLBAND SOURCE.LTE 1010 1010 true).2 = [Event.setVal8 0] ∧
    (true = true →
      (checkSpartanUseSourceCfg stLBAND SOURCE.LTE 1010 1010 true).1.curSource = SOURCE.LTE) :=
  ⟨rfl, Or.inr rfl, C2_satellite_never_sticky stLBAND SOURCE.LTE 1010 1010 true rfl (Or.inr rfl)⟩

/-- C3. Two same-mode sources never trigger a switch: for every state and every
arbitration-relevant source `s` (`s < NUM_SOURCE`) whose mode equals the mode of `curSource`,
`checkSpartanUseSourceCfg(s)` issues no receiver write and leaves `curSource` unchanged,
while `ttagSource[s]` is set to the clock reading. -/
theorem C3_same_mode_no_switch (g : GNSS) (s : SOURCE) (m1 m2 : Nat) (ok : Bool)
    (hs : s.toNat < NUM_SOURCE)
    (hmode : GNSS_SPARTAN_USESOURCE s = GNSS_SPARTAN_USESOURCE g.curSource) :
    (checkSpartanUseSourceCfg g s m1 m2 ok).2 = [] ∧
    (checkSpartanUseSourceCfg g s m1 m2 ok).1.curSource = g.curSource ∧
    (checkSpartanUseSourceCfg g s m1 m2 ok).1.ttagSource ⟨s.toNat, hs⟩ = toLong m2 := by
  have hno : ¬ (GNSS_SPARTAN_USESOURCE g.curSource ≠ GNSS_SPARTAN_USESOURCE s ∧
      (g.curSource = SOURCE.LBAND ∨
        TIMEOUT_SRC g.ttagSource (toLong m1) g.curSource = true)) :=
    fun hc => hc.1 hmode.symm
  rw [check_refused g s m1 m2 ok hs hno]
  exact ⟨rfl, rfl, Function.update_same _ _ _⟩

/-- C3, at a concrete input: WLAN active, an LTE message at 20000 ms. -/
theorem C3_same_mode_no_switch_witness :
    GNSS_SPARTAN_USESOURCE SOURCE.LTE = GNSS_SPARTAN_USESOURCE stWLAN.curSource ∧
    (checkSpartanUseSourceCfg stWLAN SOURCE.LTE 20000 20000 true).2 = [] ∧
    (checkSpartanUseSourceCfg stWLAN SOURCE.LTE 20000 20000 true).1.curSource
      = stWLAN.curSource ∧
    (checkSpartanUseSourceCfg stWLAN SOURCE.LTE 20000 20000 true).1.ttagSource
      ⟨SOURCE.LTE.toNat, by decide⟩ = toLong (20000 : Nat) :=
  ⟨rfl, C3_same_mode_no_switch stWLAN SOURCE.LTE 20000 20000 true (by decide) rfl⟩

/-- C4, as stated, fails: in the constructor state the first WLAN message, with an accepting
receiver, does not make WLAN the active source. -/
theorem C4_startup_counterexample :
    (checkSpartanUseSourceCfg (GNSS.init 5) SOURCE.WLAN 6 6 true).1.curSource ≠ SOURCE.WLAN := by
  decide

/-- C4, amended. In the state produced by the constructor (at any clock reading), with the
receiver accepting any write: the first LBAND message issues the mode-1 write and makes
LBAND the active source at once, whatever the time; a first WLAN or LTE message issues no
write and leaves `curSource = OTHER` (its mode, 0, is already the mode of `OTHER`). -/
theorem C4_startup_amended (m m1 m2 : Nat) :
    ((checkSpartanUseSourceCfg (GNSS.init m) SOURCE.LBAND m1 m2 true).1.curSource = SOURCE.LBAND ∧
      (checkSpartanUseSourceCfg (GNSS.init m) SOURCE.LBAND m1 m2 true).2 = [Event.setVal8 1]) ∧
    ((checkSpartanUseSourceCfg (GNSS.init m) SOURCE.WLAN m1 m2 true).1.curSource = SOURCE.OTHER ∧
      (checkSpartanUseSourceCfg (GNSS.init m) SOURCE.WLAN m1 m2 true).2 = []) ∧
    ((checkSpartanUseSourceCfg (GNSS.init m) SOURCE.LTE m1 m2 true).1.curSource = SOURCE.OTHER ∧
      (checkSpartanUseSourceCfg (GNSS.init m) SOURCE.LTE m1 m2 true).2 = []) := by
  have hO : (GNSS.init m).curSource = SOURCE.OTHER := rfl
  refine ⟨?_, ?_, ?_⟩
  · have hperm : (GNSS.init m).curSource = SOURCE.LBAND ∨
        TIMEOUT_SRC (GNSS.init m).ttagSource (toLong m1) (GNSS.init m).curSource = true :=
      Or.inr (by rw [hO]; rfl)
    rw [check_permitted (GNSS.init m) SOURCE.LBAND m1 m2 true (by decide)
      (by rw [hO]; decide) hperm]
    exact ⟨rfl, rfl⟩
  · rw [check_refused (GNSS.init m) SOURCE.WLAN m1 m2 true (by decide)
      (fun hc => hc.1 (by rw [hO]; rfl))]
    exact ⟨rfl, rfl⟩
  · rw [check_refused (GNSS.init m) SOURCE.LTE m1 m2 true (by decide)
      (fun hc => hc.1 (by rw [hO]; rfl))]
    exact ⟨rfl, rfl⟩

/-- C5, as stated, fails: LBAND active, a WLAN message arrives (the switch is permitted), the
receiver rejects the write, and `curSource` is not WLAN afterwards. -/
theorem C5_write_failure_counterexample :
    GNSS_SPARTAN_USESOURCE stLBAND.curSource ≠ GNSS_SPARTAN_USESOURCE SOURCE.WLAN ∧
    stLBAND.curSource = SOURCE.LBAND ∧
    (checkSpartanUseSourceCfg stLBAND SOURCE.WLAN 1010 1010 false).2 = [Event.setVal8 0] ∧
    (checkSpartanUseSourceCfg stLBAND SOURCE.WLAN 1010 1010 false).1.curSource
      ≠ SOURCE.WLAN := by
  decide

/-- C5, amended. Whenever `checkSpartanUseSourceCfg(s)` decides a switch is permitted (modes
differ and either `curSource = LBAND` or the active source has timed out) and the receiver
rejects the use-source write, `curSource` is not advanced: it keeps its previous value
afterwards, and only `ttagSource[s]` has been written. -/
theorem C5_write_failure_amended (g : GNSS) (s : SOURCE) (m1 m2 : Nat)
    (hs : s.toNat < NUM_SOURCE)
    (hmode : GNSS_SPARTAN_USESOURCE g.curSource ≠ GNSS_SPARTAN_USESOURCE s)
    (hperm : g.curSource = SOURCE.LBAND ∨
      TIMEOUT_SRC g.ttagSource (toLong m1) g.curSource = true) :
    (checkSpartanUseSourceCfg g s m1 m2 false).2 = [Event.setVal8 (GNSS_SPARTAN_USESOURCE s)] ∧
    (checkSpartanUseSourceCfg g s m1 m2 false).1.curSource = g.curSource ∧
    (checkSpartanUseSourceCfg g s m1 m2 false).1.ttagSource
      = Function.update g.ttagSource ⟨s.toNat, hs⟩ (toLong m2) := by
  rw [check_permitted g s m1 m2 false hs hmode hperm]
  exact ⟨rfl, rfl, rfl⟩

/-- C5 amended, at a concrete input: LBAND active, a WLAN message, the write rejected. -/
theorem C5_write_failure_amended_witness :
    GNSS_SPARTAN_USESOURCE stLBAND.curSource ≠ GNSS_SPARTAN_USESOURCE SOURCE.WLAN ∧
    (stLBAND.curSource = SOURCE.LBAND ∨
      TIMEOUT_SRC stLBAND.ttagSource (toLong (1010 : Nat)) stLBAND.curSource = true) ∧
    (checkSpartanUseSourceCfg stLBAND SOURCE.WLAN 1010 1010 false).2
      = [Event.setVal8 (GNSS_SPARTAN_USESOURCE SOURCE.WLAN)] ∧
    (checkSpartanUseSourceCfg stLBAND SOURCE.WLAN 1010 1010 false).1.curSource
      = stLBAND.curSource ∧
    (checkSpartanUseSourceCfg stLBAND SOURCE.WLAN 1010 1010 false).1.ttagSource
      = Function.update stLBAND.ttagSource ⟨SOURCE.WLAN.toNat, by decide⟩
          (toLong (1010 : Nat)) :=
  ⟨by decide, Or.inl rfl,
    C5_write_failure_amended stLBAND SOURCE.WLAN 1010 1010 (by decide) (by decide)
      (Or.inl rfl)⟩

/-! ## The handoff queue and `poll`: lemmas -/

/-- For `OTHER` the function does nothing. -/
theorem check_not_relevant (g : GNSS) (s : SOURCE) (m1 m2 : Nat) (ok : Bool)
    (hs : ¬ s.toNat < NUM_SOURCE) : checkSpartanUseSourceCfg g s m1 m2 ok = (g, []) := by
  unfold checkSpartanUseSourceCfg
  rw [dif_neg hs]

/-- The arbitration touches neither the queue, nor `online`, nor `ttagNextTry`. -/
theorem check_frame (g : GNSS) (s : SOURCE) (m1 m2 : Nat) (ok : Bool) :
    (checkSpartanUseSourceCfg g s m1 m2 ok).1.queue = g.queue ∧
    (checkSpartanUseSourceCfg g s m1 m2 ok).1.online = g.online ∧
    (checkSpartanUseSourceCfg g s m1 m2 ok).1.ttagNextTry = g.ttagNextTry := by
  by_cases hs : s.toNat < NUM_SOURCE
  · by_cases hp : GNSS_SPARTAN_USESOURCE g.curSource ≠ GNSS_SPARTAN_USESOURCE s ∧
        (g.curSource = SOURCE.LBAND ∨ TIMEOUT_SRC g.ttagSource (toLong m1) g.curSource = true)
    · rw [check_permitted g s m1 m2 ok hs hp.1 hp.2]
      exact ⟨rfl, rfl, rfl⟩
    · rw [check_refused g s m1 m2 ok hs hp]
      exact ⟨rfl, rfl, rfl⟩
  · rw [check_not_relevant g s m1 m2 ok hs]
    exact ⟨rfl, rfl, rfl⟩

/-- The arbitration issues at most one receiver write, with the mode of the source. -/
theorem check_events (g : GNSS) (s : SOURCE) (m1 m2 : Nat) (ok : Bool) :
    (checkSpartanUseSourceCfg g s m1 m2 ok).2 = [] ∨
    (checkSpartanUseSourceCfg g s m1 m2 ok).2 = [Event.setVal8 (GNSS_SPARTAN_USESOURCE s)] := by
  by_cases hs : s.toNat < NUM_SOURCE
  · by_cases hp : GNSS_SPARTAN_USESOURCE g.curSource ≠ GNSS_SPARTAN_USESOURCE s ∧
        (g.curSource = SOURCE.LBAND ∨ TIMEOUT_SRC g.ttagSource (toLong m1) g.curSource = true)
    · rw [check_permitted g s m1 m2 ok hs hp.1 hp.2]
      exact Or.inr rfl
    · rw [check_refused g s m1 m2 ok hs hp]
      exact Or.inl rfl
  · rw [check_not_relevant g s m1 m2 ok hs]
    exact Or.inl rfl

/-- The arbitration pushes no data, does not call itself and releases nothing. -/
theorem check_events_proj (g : GNSS) (s : SOURCE) (m1 m2 : Nat) (ok : Bool) :
    pushed (checkSpartanUseSourceCfg g s m1 m2 ok).2 = [] ∧
    checked (checkSpartanUseSourceCfg g s m1 m2 ok).2 = [] ∧
    deleted (checkSpartanUseSourceCfg g s m1 m2 ok).2 = [] := by
  rcases check_events g s m1 m2 ok with h | h <;> rw [h] <;> exact ⟨rfl, rfl, rfl⟩

/-- The events of a `delete []`. -/
theorem deleteArr_proj (d : Option Buffer) :
    pushed (deleteArr d) = [] ∧ checked (deleteArr d) = [] ∧ written (deleteArr d) = [] ∧
    deleted (deleteArr d) = (d.map Buffer.addr).toList := by
  cases d <;> exact ⟨rfl, rfl, rfl, rfl⟩

/-- The pushes of two runs in sequence. -/
theorem pushed_append (a b : List Event) : pushed (a ++ b) = pushed a ++ pushed b := by
  simp [pushed]

/-- The arbitration calls of two runs in sequence. -/
theorem checked_append (a b : List Event) : checked (a ++ b) = checked a ++ checked b := by
  simp [checked]

/-- The receiver writes of two runs in sequence. -/
theorem written_append (a b : List Event) : written (a ++ b) = written a ++ written b := by
  simp [written]

/-- The releases of two runs in sequence. -/
theorem deleted_append (a b : List Event) : deleted (a ++ b) = deleted a ++ deleted b := by
  simp [deleted]

/-- The buffers of a queue, message by message. -/
theorem buffers_cons (m : MSG) (q : List MSG) :
    buffers (m :: q) = (m.data.map Buffer.addr).toList ++ buffers q := by
  cases h : m.data <;> simp [buffers, h]

/-- The arbitration-relevant sources of two queues in sequence. -/
theorem relevant_append (a b : List MSG) : relevant (a ++ b) = relevant a ++ relevant b := by
  simp [relevant]

/-- The buffers of two queues in sequence. -/
theorem buffers_append (a b : List MSG) : buffers (a ++ b) = buffers a ++ buffers b := by
  simp [buffers]

/-- The loop body while offline: the dequeued buffer is released, nothing else happens. -/
theorem pollBody_offline (g : GNSS) (msg : MSG) (s : Step) (h : g.online = false) :
    pollBody g msg s = (g, deleteArr msg.data) := by
  simp [pollBody, h]

/-- The pushes of a run, first event apart. -/
theorem pushed_cons (e : Event) (es : List Event) : pushed (e :: es) = pushed [e] ++ pushed es :=
  pushed_append [e] es

/-- The arbitration calls of a run, first event apart. -/
theorem checked_cons (e : Event) (es : List Event) :
    checked (e :: es) = checked [e] ++ checked es :=
  checked_append [e] es

/-- The releases of a run, first event apart. -/
theorem deleted_cons (e : Event) (es : List Event) :
    deleted (e :: es) = deleted [e] ++ deleted es :=
  deleted_append [e] es

/-- The loop body while online: the arbitration is consulted for a relevant source, the
payload is pushed once, `online` takes the result of that push, the buffer is released. -/
theorem pollBody_online (g : GNSS) (msg : MSG) (s : Step) (h : g.online = true) :
    (pollBody g msg s).1.online = s.pushOk ∧
    (pollBody g msg s).1.queue = g.queue ∧
    pushed (pollBody g msg s).2 = [msg.payload] ∧
    checked (pollBody g msg s).2 = relevant [msg] ∧
    deleted (pollBody g msg s).2 = buffers [msg] := by
  have hd := deleteArr_proj msg.data
  have hc := check_events_proj g msg.source s.m1 s.m2 s.setValOk
  have hf := check_frame g msg.source s.m1 s.m2 s.setValOk
  have hb : buffers [msg] = (msg.data.map Buffer.addr).toList := by
    rw [buffers_cons]; simp [buffers]
  unfold pollBody
  rw [if_pos h]
  by_cases hs : msg.source = SOURCE.OTHER
  · have hr : relevant [msg] = [] := by simp [relevant, hs]
    rw [if_neg (not_not.mpr hs), hr, hb]
    refine ⟨rfl, rfl, ?_, ?_, ?_⟩
    · rw [pushed_append, hd.1]; rfl
    · rw [checked_append, hd.2.1]; rfl
    · rw [deleted_append, hd.2.2.2]; rfl
  · have hr : relevant [msg] = [msg.source] := by simp [relevant, hs]
    rw [if_pos hs, hr, hb]
    refine ⟨rfl, hf.1, ?_, ?_, ?_⟩
    · rw [pushed_append, pushed_append, hd.1, pushed_cons, hc.1]; rfl
    · rw [checked_append, checked_append, hd.2.1, checked_cons, hc.2.1]; rfl
    · rw [deleted_append, deleted_append, hd.2.2.2, deleted_cons, hc.2.2]; rfl

/-- One turn of the loop. -/
theorem pollLoop_cons (step : Nat → Step) (m : MSG) (rest : List MSG) (k : Nat) (g : GNSS) :
    pollLoop step (m :: rest) k g =
      ((pollLoop step rest (k + 1) (pollBody { g with queue := rest } m (step k)).1).1,
        (pollBody { g with queue := rest } m (step k)).2 ++
          (pollLoop step rest (k + 1) (pollBody { g with queue := rest } m (step k)).1).2) :=
  rfl

/-- While the object is offline the loop only receives and releases. -/
theorem pollLoop_offline (step : Nat → Step) (q : List MSG) (k : Nat) (g : GNSS)
    (h : g.online = false) :
    (pollLoop step q k g).1.online = false ∧
    (pollLoop step q k g).1.curSource = g.curSource ∧
    (pollLoop step q k g).1.ttagSource = g.ttagSource ∧
    (pollLoop step q k g).1.ttagNextTry = g.ttagNextTry ∧
    pushed (pollLoop step q k g).2 = [] ∧
    checked (pollLoop step q k g).2 = [] ∧
    deleted (pollLoop step q k g).2 = buffers q := by
  induction q generalizing k g with
  | nil => exact ⟨h, rfl, rfl, rfl, rfl, rfl, rfl⟩
  | cons m rest ih =>
    have hb := pollBody_offline { g with queue := rest } m (step k) h
    have hd := deleteArr_proj m.data
    rw [pollLoop_cons, hb]
    have := ih (k + 1) { g with queue := rest } h
    refine ⟨this.1, this.2.1, this.2.2.1, this.2.2.2.1, ?_, ?_, ?_⟩
    · rw [pushed_append, hd.1, this.2.2.2.2.1]; rfl
    · rw [checked_append, hd.2.1, this.2.2.2.2.2.1]; rfl
    · rw [deleted_append, hd.2.2.2, this.2.2.2.2.2.2, buffers_cons]

/-- The loop leaves the queue empty. -/
theorem pollLoop_queue (step : Nat → Step) (q : List MSG) (k : Nat) (g : GNSS)
    (h : g.queue = q) : (pollLoop step q k g).1.queue = [] := by
  induction q generalizing k g with
  | nil => exact h
  | cons m rest ih =>
    rw [pollLoop_cons]
    apply ih
    by_cases ho : g.online = true
    · exact (pollBody_online { g with queue := rest } m (step k) ho).2.1
    · have ho2 : g.online = false := by simpa using ho
      rw [pollBody_offline { g with queue := rest } m (step k) ho2]

/-- The loop while every push succeeds: every message is forwarded, in order. -/
theorem pollLoop_all_pushed (step : Nat → Step) (q : List MSG) (k : Nat) (g : GNSS)
    (h : g.online = true) (hp : ∀ i, i < q.length → (step (k + i)).pushOk = true) :
    (pollLoop step q k g).1.online = true ∧
    pushed (pollLoop step q k g).2 = q.map MSG.payload ∧
    checked (pollLoop step q k g).2 = relevant q ∧
    deleted (pollLoop step q k g).2 = buffers q := by
  induction q generalizing k g with
  | nil => exact ⟨h, rfl, rfl, rfl⟩
  | cons m rest ih =>
    have hb := pollBody_online { g with queue := rest } m (step k) h
    have hk : (step k).pushOk = true := by simpa using hp 0 (by simp)
    have hon : (pollBody { g with queue := rest } m (step k)).1.online = true := by
      rw [hb.1, hk]
    have := ih (k + 1) (pollBody { g with queue := rest } m (step k)).1 hon
      (fun i hi => by
        have := hp (i + 1) (by simpa using hi)
        rwa [show k + 1 + i = k + (i + 1) by omega])
    rw [pollLoop_cons]
    refine ⟨this.1, ?_, ?_, ?_⟩
    · rw [pushed_append, hb.2.2.1, this.2.1]; rfl
    · rw [checked_append, hb.2.2.2.1, this.2.2.1]; exact (relevant_append [m] rest).symm
    · rw [deleted_append, hb.2.2.2.2, this.2.2.2]; exact (buffers_append [m] rest).symm

/-- The loop when the push of the message behind `pre` is the first to fail. -/
theorem pollLoop_push_failure (step : Nat → Step) (pre : List MSG) (m : MSG) (post : List MSG)
    (k : Nat) (g : GNSS) (h : g.online = true)
    (hp : ∀ i, i < pre.length → (step (k + i)).pushOk = true)
    (hf : (step (k + pre.length)).pushOk = false) :
    (pollLoop step (pre ++ m :: post) k g).1.online = false ∧
    pushed (pollLoop step (pre ++ m :: post) k g).2 = (pre ++ [m]).map MSG.payload ∧
    checked (pollLoop step (pre ++ m :: post) k g).2 = relevant (pre ++ [m]) ∧
    deleted (pollLoop step (pre ++ m :: post) k g).2 = buffers (pre ++ m :: post) := by
  induction pre generalizing k g with
  | nil =>
    have hb := pollBody_online { g with queue := post } m (step k) h
    have hk : (step k).pushOk = false := by simpa using hf
    have hoff : (pollBody { g with queue := post } m (step k)).1.online = false := by
      rw [hb.1, hk]
    have := pollLoop_offline step post (k + 1)
      (pollBody { g with queue := post } m (step k)).1 hoff
    rw [List.nil_append, pollLoop_cons]
    refine ⟨this.1, ?_, ?_, ?_⟩
    · rw [pushed_append, hb.2.2.1, this.2.2.2.2.1]; rfl
    · rw [checked_append, hb.2.2.2.1, this.2.2.2.2.2.1]; simp
    · rw [deleted_append, hb.2.2.2.2, this.2.2.2.2.2.2]; exact (buffers_append [m] post).symm
  | cons x pre ih =>
    have hb := pollBody_online { g with queue := pre ++ m :: post } x (step k) h
    have hk : (step k).pushOk = true := by simpa using hp 0 (by simp)
    have hon : (pollBody { g with queue := pre ++ m :: post } x (step k)).1.online = true := by
      rw [hb.1, hk]
    have := ih (k + 1) (pollBody { g with queue := pre ++ m :: post } x (step k)).1 hon
      (fun i hi => by
        have := hp (i + 1) (by simpa using hi)
        rwa [show k + 1 + i = k + (i + 1) by omega])
      (by rw [show k + 1 + pre.length = k + (x :: pre).length by simp; omega]; exact hf)
    rw [List.cons_append, pollLoop_cons]
    refine ⟨this.1, ?_, ?_, ?_⟩
    · rw [pushed_append, hb.2.2.1, this.2.1]; simp
    · rw [checked_append, hb.2.2.2.1, this.2.2.1]
      exact (relevant_append [x] (pre ++ [m])).symm
    · rw [deleted_append, hb.2.2.2.2, this.2.2.2]
      exact (buffers_append [x] (pre ++ m :: post)).symm

/-- A call of `inject(MSG&)` on a queue with a free slot. -/
theorem inject_free (g : GNSS) (msg : MSG) (h : g.queue.length < QUEUE_LENGTH) :
    inject g msg =
      { ret := msg.size, msg := msg, g := { g with queue := g.queue ++ [msg] }, events := [] } := by
  simp [inject, xQueueSendToBack, h]

/-- A call of `inject(MSG&)` on a full queue. -/
theorem inject_full (g : GNSS) (msg : MSG) (h : ¬ g.queue.length < QUEUE_LENGTH) :
    inject g msg =
      { ret := 0, msg := { msg with data := none }, g := g, events := deleteArr msg.data } := by
  simp [inject, xQueueSendToBack, h]

/-- Successive injections that fit into the queue all succeed and append in order. -/
theorem injectAll_fits (msgs : List MSG) (g : GNSS)
    (h : g.queue.length + msgs.length ≤ QUEUE_LENGTH) :
    (injectAll g msgs).1 = { g with queue := g.queue ++ msgs } ∧
    (injectAll g msgs).2 = msgs.map MSG.size := by
  induction msgs generalizing g with
  | nil => simp [injectAll]
  | cons m rest ih =>
    have hlt : g.queue.length < QUEUE_LENGTH := by
      simp only [List.length_cons] at h
      omega
    have hi := inject_free g m hlt
    have := ih { g with queue := g.queue ++ [m] } (by
      simp only [List.length_append, List.length_cons, List.length_nil] at h ⊢
      omega)
    simp only [injectAll, hi]
    refine ⟨?_, ?_⟩
    · rw [this.1]; simp
    · rw [this.2]; simp

/-- Repeated receiving takes the messages from the front, in order. -/
theorem receiveN_eq (n : Nat) (q : List MSG) : receiveN n q = (q.take n, q.drop n) := by
  induction n generalizing q with
  | zero => simp [receiveN]
  | succ n ih =>
    cases q with
    | nil => simp [receiveN, xQueueReceive]
    | cons m rest => simp [receiveN, xQueueReceive, ih]

/-- A call of `poll()` on an online object: no detection, the loop runs on the whole queue. -/
theorem poll_online (g : GNSS) (env : PollEnv) (h : g.online = true) :
    ∃ g1 : GNSS, g1.online = true ∧ g1.queue = g.queue ∧ g1.curSource = g.curSource ∧
      g1.ttagSource = g.ttagSource ∧ poll g env = pollLoop env.step g.queue 0 g1 := by
  by_cases ht : g.ttagNextTry ≤ toLong env.now
  · refine ⟨{ g with ttagNextTry := toLong (toLong env.now + GNSS_DETECT_RETRY) },
      h, rfl, rfl, rfl, ?_⟩
    simp [poll, ht, h]
  · refine ⟨g, h, rfl, rfl, rfl, ?_⟩
    simp [poll, ht, h]

/-- A call of `poll()` on an offline object when the detection is not due or does not
succeed: only `ttagNextTry` may change. -/
theorem poll_offline (g : GNSS) (env : PollEnv) (h : g.online = false)
    (hd : g.ttagNextTry ≤ toLong env.now → (env.det.beginOk && env.det.configOk) = false) :
    (poll g env).2 = [] ∧ (poll g env).1.online = false ∧ (poll g env).1.queue = g.queue ∧
    (poll g env).1.curSource = g.curSource ∧ (poll g env).1.ttagSource = g.ttagSource := by
  by_cases ht : g.ttagNextTry ≤ toLong env.now
  · have hdd := hd ht
    cases hb : env.det.beginOk <;> cases hc : env.det.configOk <;>
      simp_all [poll, detect]
  · simp [poll, ht, h]

/-! ## The handoff queue and `poll`: theorems -/

/-- C6. FIFO delivery and complete drain: for every sequence of at most 10 messages injected
into an empty queue (each `inject` succeeds, returning the message size), a `poll` executed
while online in which every `pushRawData` succeeds forwards each message's bytes to the
receiver exactly once, in exactly the order the messages were enqueued, and leaves the queue
empty. -/
theorem C6_fifo_drain (g : GNSS) (msgs : List MSG) (env : PollEnv)
    (hq : g.queue = []) (hon : g.online = true) (hlen : msgs.length ≤ 10)
    (hpush : ∀ k, k < msgs.length → (env.step k).pushOk = true) :
    (injectAll g msgs).2 = msgs.map MSG.size ∧
    (injectAll g msgs).1.queue = msgs ∧
    pushed (poll (injectAll g msgs).1 env).2 = msgs.map MSG.payload ∧
    (poll (injectAll g msgs).1 env).1.queue = [] ∧
    (poll (injectAll g msgs).1 env).1.online = true := by
  have hfit := injectAll_fits msgs g (by rw [hq]; simpa [QUEUE_LENGTH] using hlen)
  have hqa : (injectAll g msgs).1.queue = msgs := by rw [hfit.1, hq]; rfl
  have hona : (injectAll g msgs).1.online = true := by rw [hfit.1]; exact hon
  obtain ⟨g1, h1, h2, _, _, h5⟩ := poll_online (injectAll g msgs).1 env hona
  rw [h5, hqa]
  have hall := pollLoop_all_pushed env.step msgs 0 g1 h1
    (fun i hi => by rw [Nat.zero_add]; exact hpush i hi)
  exact ⟨hfit.2, rfl, hall.2.1, pollLoop_queue env.step msgs 0 g1 (h2.trans hqa), hall.1⟩

/-- C6, at a concrete input: a WLAN, an LBAND and an OTHER message injected into the empty
queue of an online object, then polled with every push succeeding. -/
theorem C6_fifo_drain_witness :
    stLTE.queue = [] ∧ stLTE.online = true ∧ [msgA, msgB, msgC].length ≤ 10 ∧
    (∀ k, k < [msgA, msgB, msgC].length → (envOk.step k).pushOk = true) ∧
    ((injectAll stLTE [msgA, msgB, msgC]).2 = [msgA, msgB, msgC].map MSG.size ∧
    (injectAll stLTE [msgA, msgB, msgC]).1.queue = [msgA, msgB, msgC] ∧
    pushed (poll (injectAll stLTE [msgA, msgB, msgC]).1 envOk).2
      = [msgA, msgB, msgC].map MSG.payload ∧
    (poll (injectAll stLTE [msgA, msgB, msgC]).1 envOk).1.queue = [] ∧
    (poll (injectAll stLTE [msgA, msgB, msgC]).1 envOk).1.online = true) :=
  ⟨rfl, rfl, by decide, fun _ _ => rfl,
    C6_fifo_drain stLTE [msgA, msgB, msgC] envOk rfl rfl (by decide) (fun _ _ => rfl)⟩

/-- C7. Queue-full rejection: when the queue already holds 10 messages, `inject(msg)` returns
0, frees the buffer (`msg.data` is `NULL` afterwards) and leaves the queue contents
unchanged, so that subsequent dequeues yield exactly the first 10 messages in their original
order and never the rejected one. -/
theorem C7_queue_full_rejection (g : GNSS) (msg : MSG) (b : Buffer)
    (hfull : g.queue.length = 10) (hdata : msg.data = some b) :
    (inject g msg).ret = 0 ∧
    (inject g msg).events = [Event.delete b.addr] ∧
    (inject g msg).msg.data = none ∧
    (inject g msg).g.queue = g.queue ∧
    (∀ n, (receiveN n (inject g msg).g.queue).1 = g.queue.take n) ∧
    (∀ n, 10 ≤ n → receiveN n (inject g msg).g.queue = (g.queue, [])) := by
  have hnot : ¬ g.queue.length < QUEUE_LENGTH := by
    rw [hfull]; decide
  rw [inject_full g msg hnot]
  refine ⟨rfl, ?_, rfl, rfl, ?_, ?_⟩
  · simp [deleteArr, hdata]
  · intro n
    rw [receiveN_eq]
  · intro n hn
    rw [receiveN_eq]
    have hle : g.queue.length ≤ n := by omega
    simp [List.take_of_length_le hle, List.drop_of_length_le hle]

/-- C7, at a concrete input: an eleventh LTE message offered to a queue of ten. -/
theorem C7_queue_full_rejection_witness :
    ({ stLTE with queue := fullQueue } : GNSS).queue.length = 10 ∧
    msgD.data = some { addr := 11, bytes := [40] } ∧
    ((inject { stLTE with queue := fullQueue } msgD).ret = 0 ∧
    (inject { stLTE with queue := fullQueue } msgD).events
      = [Event.delete (Buffer.addr { addr := 11, bytes := [40] })] ∧
    (inject { stLTE with queue := fullQueue } msgD).msg.data = none ∧
    (inject { stLTE with queue := fullQueue } msgD).g.queue
      = ({ stLTE with queue := fullQueue } : GNSS).queue ∧
    (∀ n, (receiveN n (inject { stLTE with queue := fullQueue } msgD).g.queue).1
      = List.take n ({ stLTE with queue := fullQueue } : GNSS).queue) ∧
    (∀ n, 10 ≤ n → receiveN n (inject { stLTE with queue := fullQueue } msgD).g.queue
      = (({ stLTE with queue := fullQueue } : GNSS).queue, []))) :=
  ⟨rfl, rfl,
    C7_queue_full_rejection { stLTE with queue := fullQueue } msgD { addr := 11, bytes := [40] }
      rfl rfl⟩

/-- C8, as stated, fails: the push of the second of three queued buffers fails, and when
`poll` returns the buffer queued behind it is not in the queue any more (the queue is empty
and its block has been released without its bytes having been pushed). -/
theorem C8_push_failure_counterexample :
    (envFail.step 1).pushOk = false ∧
    (poll { stLTE with queue := [msgA, msgB, msgC] } envFail).1.queue ≠ [msgC] ∧
    (poll { stLTE with queue := [msgA, msgB, msgC] } envFail).1.queue = [] ∧
    pushed (poll { stLTE with queue := [msgA, msgB, msgC] } envFail).2
      = [[10, 11], [20, 21, 22]] ∧
    deleted (poll { stLTE with queue := [msgA, msgB, msgC] } envFail).2 = [1, 2, 3] := by
  decide

/-- C8, amended. If during a `poll` the `pushRawData` of a dequeued buffer fails (the first
failure, behind the buffers `pre`), no buffer queued behind it is forwarded in this call,
but the loop goes on receiving: every buffer queued behind it is dequeued and released
without being forwarded, and the queue is empty when `poll` returns. -/
theorem C8_push_failure_amended (g : GNSS) (env : PollEnv) (pre : List MSG) (m : MSG)
    (post : List MSG) (hon : g.online = true) (hq : g.queue = pre ++ m :: post)
    (hok : ∀ i, i < pre.length → (env.step i).pushOk = true)
    (hfail : (env.step pre.length).pushOk = false) :
    pushed (poll g env).2 = (pre ++ [m]).map MSG.payload ∧
    deleted (poll g env).2 = buffers (pre ++ m :: post) ∧
    (poll g env).1.queue = [] := by
  obtain ⟨g1, h1, h2, _, _, h5⟩ := poll_online g env hon
  rw [h5, hq]
  have hf := pollLoop_push_failure env.step pre m post 0 g1 h1
    (fun i hi => by rw [Nat.zero_add]; exact hok i hi) (by rw [Nat.zero_add]; exact hfail)
  exact ⟨hf.2.1, hf.2.2.2, pollLoop_queue env.step _ 0 g1 (h2.trans hq)⟩

/-- C8 amended, at a concrete input: three queued buffers, the second push fails. -/
theorem C8_push_failure_amended_witness :
    ({ stLTE with queue := [msgA, msgB, msgC] } : GNSS).online = true ∧
    ({ stLTE with queue := [msgA, msgB, msgC] } : GNSS).queue = [msgA] ++ msgB :: [msgC] ∧
    (∀ i, i < [msgA].length → (envFail.step i).pushOk = true) ∧
    (envFail.step [msgA].length).pushOk = false ∧
    (pushed (poll { stLTE with queue := [msgA, msgB, msgC] } envFail).2
      = ([msgA] ++ [msgB]).map MSG.payload ∧
    deleted (poll { stLTE with queue := [msgA, msgB, msgC] } envFail).2
      = buffers ([msgA] ++ msgB :: [msgC]) ∧
    (poll { stLTE with queue := [msgA, msgB, msgC] } envFail).1.queue = []) :=
  ⟨rfl, rfl, by decide, rfl,
    C8_push_failure_amended { stLTE with queue := [msgA, msgB, msgC] } envFail [msgA] msgB
      [msgC] rfl rfl (by decide) rfl⟩

/-- C9. Offline after push failure: if `pushRawData` fails for a dequeued buffer during
`poll` (the first failure, behind the buffers `pre`), `online` is false when `poll` returns
and neither `pushRawData` nor `checkSpartanUseSourceCfg` is invoked for any later buffer in
that call; and in every `poll` of an object that is offline in which the detection is not due
or does not succeed, nothing is forwarded to the receiver and the queue contents,
`curSource` and `ttagSource` are unchanged (and the object stays offline). -/
theorem C9_offline_after_push_failure (g : GNSS) (env : PollEnv) (pre : List MSG) (m : MSG)
    (post : List MSG) (hon : g.online = true) (hq : g.queue = pre ++ m :: post)
    (hok : ∀ i, i < pre.length → (env.step i).pushOk = true)
    (hfail : (env.step pre.length).pushOk = false)
    (g2 : GNSS) (env2 : PollEnv) (hoff : g2.online = false)
    (hdet : g2.ttagNextTry ≤ toLong env2.now →
      (env2.det.beginOk && env2.det.configOk) = false) :
    ((poll g env).1.online = false ∧
      pushed (poll g env).2 = (pre ++ [m]).map MSG.payload ∧
      checked (poll g env).2 = relevant (pre ++ [m])) ∧
    ((poll g2 env2).2 = [] ∧
      (poll g2 env2).1.queue = g2.queue ∧
      (poll g2 env2).1.curSource = g2.curSource ∧
      (poll g2 env2).1.ttagSource = g2.ttagSource ∧
      (poll g2 env2).1.online = false) := by
  refine ⟨?_, ?_⟩
  · obtain ⟨g1, h1, _, _, _, h5⟩ := poll_online g env hon
    rw [h5, hq]
    have hf := pollLoop_push_failure env.step pre m post 0 g1 h1
      (fun i hi => by rw [Nat.zero_add]; exact hok i hi) (by rw [Nat.zero_add]; exact hfail)
    exact ⟨hf.1, hf.2.1, hf.2.2.1⟩
  · have hp := poll_offline g2 env2 hoff hdet
    exact ⟨hp.1, hp.2.2.1, hp.2.2.2.1, hp.2.2.2.2, hp.2.1⟩

/-- C9, at a concrete input: three queued buffers, the second push fails; then a `poll` of an
offline object while no receiver is detected. -/
theorem C9_offline_after_push_failure_witness :
    ({ stLTE with queue := [msgA, msgB, msgC] } : GNSS).online = true ∧
    ({ stLTE with queue := [msgA, msgB, msgC] } : GNSS).queue = [msgA] ++ msgB :: [msgC] ∧
    (∀ i, i < [msgA].length → (envFail.step i).pushOk = true) ∧
    (envFail.step [msgA].length).pushOk = false ∧
    ({ stLTE with online := false, queue := [msgD] } : GNSS).online = false ∧
    (({ stLTE with online := false, queue := [msgD] } : GNSS).ttagNextTry ≤ toLong envOk.now →
      (envOk.det.beginOk && envOk.det.configOk) = false) ∧
    (((poll { stLTE with queue := [msgA, msgB, msgC] } envFail).1.online = false ∧
      pushed (poll { stLTE with queue := [msgA, msgB, msgC] } envFail).2
        = ([msgA] ++ [msgB]).map MSG.payload ∧
      checked (poll { stLTE with queue := [msgA, msgB, msgC] } envFail).2
        = relevant ([msgA] ++ [msgB])) ∧
    ((poll { stLTE with online := false, queue := [msgD] } envOk).2 = [] ∧
      (poll { stLTE with online := false, queue := [msgD] } envOk).1.queue
        = ({ stLTE with online := false, queue := [msgD] } : GNSS).queue ∧
      (poll { stLTE with online := false, queue := [msgD] } envOk).1.curSource
        = ({ stLTE with online := false, queue := [msgD] } : GNSS).curSource ∧
      (poll { stLTE with online := false, queue := [msgD] } envOk).1.ttagSource
        = ({ stLTE with online := false, queue := [msgD] } : GNSS).ttagSource ∧
      (poll { stLTE with online := false, queue := [msgD] } envOk).1.online = false)) :=
  ⟨rfl, rfl, by decide, rfl, rfl, fun _ => rfl,
    C9_offline_after_push_failure { stLTE with queue := [msgA, msgB, msgC] } envFail [msgA]
      msgB [msgC] rfl rfl (by decide) rfl { stLTE with online := false, queue := [msgD] } envOk
      rfl (fun _ => rfl)⟩


/-! ## Frame reconstruction: theorems -/

/-- The declared payload length: the 16-bit value is `256 * lengthMSB + lengthLSB`. -/
theorem pmpSize_eq (p : UBX_RXM_PMP_message_data_t) :
    pmpSize p = 256 * p.lengthMSB.val + p.lengthLSB.val := by
  have ha := p.lengthMSB.isLt
  have hb := p.lengthLSB.isLt
  have hor : 2 ^ 8 * p.lengthMSB.val + p.lengthLSB.val = 2 ^ 8 * p.lengthMSB.val ||| p.lengthLSB.val :=
    Nat.mul_add_lt_is_or (by simp) _
  unfold pmpSize
  rw [Nat.shiftLeft_eq, Nat.mul_comm, ← hor]
  omega

/-- The number of bytes of the object from `sync1` on. -/
theorem fromSync1_length (p : UBX_RXM_PMP_message_data_t) :
    p.fromSync1.length = p.payload.length + 8 := by
  simp [UBX_RXM_PMP_message_data_t.fromSync1]

/-- The block built by the two `memcpy` calls, when the declared length does not run past
the object. -/
theorem pmpMsg_eq (p : UBX_RXM_PMP_message_data_t) (a : Nat)
    (hfit : pmpSize p ≤ p.payload.length + 2) :
    pmpMsg p a =
      { source := SOURCE.LBAND
        data := some { addr := a
                       bytes := p.fromSync1.take (pmpSize p + 6) ++ [p.checksumA, p.checksumB] }
        size := pmpSize p + 8 } := by
  have hlen : (p.fromSync1.take (pmpSize p + 6)).length = pmpSize p + 6 := by
    rw [List.length_take, fromSync1_length]
    omega
  unfold pmpMsg
  simp only [memcpy, UBX_RXM_PMP_message_data_t.fromChecksumA]
  congr 3
  simp only [List.take_zero, List.nil_append, Nat.zero_add, List.drop_replicate]
  rw [List.take_append_of_le_length (by rw [hlen]), List.take_of_length_le (by rw [hlen])]
  rw [List.drop_append_eq_append_drop]
  simp [hlen]

/-- C10. Frame reconstruction layout: for every RXM-PMP sub-message, with
`L = 256 * lengthMSB + lengthLSB` (not running past the object: `L + 6` bytes exist from
`sync1` on), `onRXMPMPdata` builds and injects a message with size exactly `L + 8`, whose
first `L + 6` bytes equal the `L + 6` bytes of the sub-message starting at its `sync1` field,
whose last two bytes (indices `L + 6` and `L + 7`) equal `checksumA` and `checksumB`, and
whose source is LBAND. -/
theorem C10_frame_layout (g : GNSS) (p : UBX_RXM_PMP_message_data_t) (a : Nat)
    (hfit : 256 * p.lengthMSB.val + p.lengthLSB.val ≤ p.payload.length + 2) :
    (onRXMPMPdata g (some p) (some a)).2 = Event.alloc a :: (inject g (pmpMsg p a)).events ∧
    (onRXMPMPdata g (some p) (some a)).1 = (inject g (pmpMsg p a)).g ∧
    (pmpMsg p a).size = 256 * p.lengthMSB.val + p.lengthLSB.val + 8 ∧
    (pmpMsg p a).source = SOURCE.LBAND ∧
    ∃ b : Buffer, (pmpMsg p a).data = some b ∧ b.addr = a ∧
      b.bytes.length = 256 * p.lengthMSB.val + p.lengthLSB.val + 8 ∧
      b.bytes.take (256 * p.lengthMSB.val + p.lengthLSB.val + 6)
        = p.fromSync1.take (256 * p.lengthMSB.val + p.lengthLSB.val + 6) ∧
      (p.fromSync1.take (256 * p.lengthMSB.val + p.lengthLSB.val + 6)).length
        = 256 * p.lengthMSB.val + p.lengthLSB.val + 6 ∧
      b.bytes[256 * p.lengthMSB.val + p.lengthLSB.val + 6]? = some p.checksumA ∧
      b.bytes[256 * p.lengthMSB.val + p.lengthLSB.val + 7]? = some p.checksumB := by
  have hsz := pmpSize_eq p
  have hlen : (p.fromSync1.take (pmpSize p + 6)).length = pmpSize p + 6 := by
    rw [List.length_take, fromSync1_length]
    omega
  refine ⟨rfl, rfl, ?_⟩
  rw [pmpMsg_eq p a (by rw [hsz]; exact hfit), ← hsz]
  refine ⟨rfl, rfl, _, rfl, rfl, ?_, ?_, hlen, ?_, ?_⟩
  · simp only [List.length_append, hlen, List.length_cons, List.length_nil]
  · rw [List.take_append_of_le_length (by rw [hlen]), List.take_of_length_le (by rw [hlen])]
  · rw [List.getElem?_append_right (by rw [hlen])]
    simp [hlen]
  · rw [List.getElem?_append_right (by rw [hlen]; omega)]
    simp [hlen]

/-- C10, at a concrete input: a sub-message declaring 3 payload bytes. -/
theorem C10_frame_layout_witness :
    256 * pmpEx.lengthMSB.val + pmpEx.lengthLSB.val ≤ pmpEx.payload.length + 2 ∧
    ((onRXMPMPdata stLTE (some pmpEx) (some 7)).2
      = Event.alloc 7 :: (inject stLTE (pmpMsg pmpEx 7)).events ∧
    (onRXMPMPdata stLTE (some pmpEx) (some 7)).1 = (inject stLTE (pmpMsg pmpEx 7)).g ∧
    (pmpMsg pmpEx 7).size = 256 * pmpEx.lengthMSB.val + pmpEx.lengthLSB.val + 8 ∧
    (pmpMsg pmpEx 7).source = SOURCE.LBAND ∧
    ∃ b : Buffer, (pmpMsg pmpEx 7).data = some b ∧ b.addr = 7 ∧
      b.bytes.length = 256 * pmpEx.lengthMSB.val + pmpEx.lengthLSB.val + 8 ∧
      b.bytes.take (256 * pmpEx.lengthMSB.val + pmpEx.lengthLSB.val + 6)
        = pmpEx.fromSync1.take (256 * pmpEx.lengthMSB.val + pmpEx.lengthLSB.val + 6) ∧
      (pmpEx.fromSync1.take (256 * pmpEx.lengthMSB.val + pmpEx.lengthLSB.val + 6)).length
        = 256 * pmpEx.lengthMSB.val + pmpEx.lengthLSB.val + 6 ∧
      b.bytes[256 * pmpEx.lengthMSB.val + pmpEx.lengthLSB.val + 6]? = some pmpEx.checksumA ∧
      b.bytes[256 * pmpEx.lengthMSB.val + pmpEx.lengthLSB.val + 7]? = some pmpEx.checksumB) :=
  ⟨by decide, C10_frame_layout stLTE pmpEx 7 (by decide)⟩

/-- The sub-message of the example is rebuilt as the eleven bytes of its frame. -/
theorem pmpMsg_example :
    pmpMsg pmpEx 7 =
      { source := SOURCE.LBAND
        data := some { addr := 7, bytes := [0xB5, 0x62, 2, 0x72, 3, 0, 1, 2, 3, 9, 10] }
        size := 11 } := by
  decide


/-! ## Claims on `inject`, on the loop body and on the liveness table -/

/-- The copy made by `inject(ptr, len, src)` when `ptr` holds `len` bytes. -/
theorem memcpy_fresh (ptr : List Byte) (len : Nat) (h : ptr.length = len) :
    memcpy (List.replicate len 0) 0 ptr len = ptr := by
  simp [memcpy, ← h]

/-- C11. The return value and the copy of `inject(ptr, len, src)`: for every byte sequence of
length `len` and every source `src`, when the queue holds fewer than 10 messages and the
allocation succeeds the call returns `len` and appends at the back of the queue a message
whose size is `len`, whose source is `src` and whose bytes equal the input bytes, leaving the
earlier queue entries unchanged; otherwise (allocation failed or queue full) it returns 0,
and the queue is unchanged. -/
theorem C11_inject_copy (g : GNSS) (ptr : List Byte) (len : Nat) (src : SOURCE)
    (addr : Option Nat) (hlen : ptr.length = len) :
    (∀ a, addr = some a → g.queue.length < 10 →
      (injectBytes g ptr len src addr).ret = len ∧
      (injectBytes g ptr len src addr).g.queue =
        g.queue ++ [{ source := src, data := some { addr := a, bytes := ptr }, size := len }]) ∧
    ((addr = none ∨ ¬ g.queue.length < 10) →
      (injectBytes g ptr len src addr).ret = 0 ∧
      (injectBytes g ptr len src addr).g.queue = g.queue) := by
  refine ⟨?_, ?_⟩
  · intro a ha hq
    subst ha
    simp only [injectBytes, memcpy_fresh ptr len hlen]
    rw [inject_free g _ hq]
    exact ⟨rfl, rfl⟩
  · intro h
    cases addr with
    | none => exact ⟨rfl, rfl⟩
    | some a =>
      have hq : ¬ g.queue.length < QUEUE_LENGTH := by
        rcases h with h | h
        · cases h
        · exact h
      simp only [injectBytes]
      rw [inject_full g _ hq]
      exact ⟨rfl, rfl⟩

/-- C11, at a concrete input: three bytes from WLAN into an empty queue, block 4. -/
theorem C11_inject_copy_witness :
    ([1, 2, 3] : List Byte).length = 3 ∧
    ((∀ a, some 4 = some a → stLTE.queue.length < 10 →
      (injectBytes stLTE [1, 2, 3] 3 SOURCE.WLAN (some 4)).ret = 3 ∧
      (injectBytes stLTE [1, 2, 3] 3 SOURCE.WLAN (some 4)).g.queue =
        stLTE.queue ++
          [{ source := SOURCE.WLAN, data := some { addr := a, bytes := [1, 2, 3] }, size := 3 }]) ∧
    ((some 4 = none ∨ ¬ stLTE.queue.length < 10) →
      (injectBytes stLTE [1, 2, 3] 3 SOURCE.WLAN (some 4)).ret = 0 ∧
      (injectBytes stLTE [1, 2, 3] 3 SOURCE.WLAN (some 4)).g.queue = stLTE.queue)) :=
  ⟨rfl, C11_inject_copy stLTE [1, 2, 3] 3 SOURCE.WLAN (some 4) rfl⟩

/-- C12, as stated, fails: in a `poll` of three queued buffers whose second push fails, the
third buffer, from `OTHER`, is dequeued while the object is offline: its bytes are not
forwarded with `pushRawData`, its block is only released. -/
theorem C12_other_counterexample :
    msgC.source = SOURCE.OTHER ∧ msgC.payload = [30] ∧
    pushed (poll { stLTE with queue := [msgA, msgB, msgC] } envFail).2
      = [[10, 11], [20, 21, 22]] ∧
    deleted (poll { stLTE with queue := [msgA, msgB, msgC] } envFail).2 = [1, 2, 3] ∧
    (pollBody { stLTE with online := false } msgC (envFail.step 2)).2 = [Event.delete 3] ∧
    pushed (pollBody { stLTE with online := false } msgC (envFail.step 2)).2 = [] := by
  decide

/-- C12, amended. Unspecified never participates in arbitration: for every state, when `poll`
processes a dequeued message whose source is `OTHER`, `checkSpartanUseSourceCfg` is not
called, no use-source write is issued and `curSource` and every `ttagSource` entry are
unchanged; the bytes of the message are forwarded to the receiver with `pushRawData` if the
object is online when the message is dequeued, and if it is offline (a push failed earlier
in the same `poll`) the message is released without being forwarded. -/
theorem C12_other_not_arbitrated_amended (g : GNSS) (msg : MSG) (s : Step)
    (hsrc : msg.source = SOURCE.OTHER) :
    written (pollBody g msg s).2 = [] ∧
    checked (pollBody g msg s).2 = [] ∧
    (pollBody g msg s).1.curSource = g.curSource ∧
    (pollBody g msg s).1.ttagSource = g.ttagSource ∧
    (g.online = true →
      (pollBody g msg s).2 = Event.pushRawData msg.payload :: deleteArr msg.data) ∧
    (g.online = false →
      (pollBody g msg s).2 = deleteArr msg.data ∧ pushed (pollBody g msg s).2 = [] ∧
      (pollBody g msg s).1.online = false) := by
  have hd := deleteArr_proj msg.data
  cases hon : g.online
  · rw [pollBody_offline g msg s hon]
    exact ⟨hd.2.2.1, hd.2.1, rfl, rfl, fun h => absurd h (by simp),
      fun _ => ⟨rfl, hd.1, hon⟩⟩
  · have hb : pollBody g msg s =
        ({ g with online := s.pushOk }, Event.pushRawData msg.payload :: deleteArr msg.data) := by
      simp [pollBody, hon, hsrc]
    rw [hb]
    refine ⟨?_, ?_, rfl, rfl, fun _ => rfl, fun h => absurd h (by simp)⟩
    · rw [show Event.pushRawData msg.payload :: deleteArr msg.data
        = [Event.pushRawData msg.payload] ++ deleteArr msg.data from rfl, written_append, hd.2.2.1]
      rfl
    · rw [show Event.pushRawData msg.payload :: deleteArr msg.data
        = [Event.pushRawData msg.payload] ++ deleteArr msg.data from rfl, checked_append, hd.2.1]
      rfl

/-- C12 amended, at a concrete input: the `OTHER` message of the examples, LTE being active
and the object online. -/
theorem C12_other_not_arbitrated_amended_witness :
    msgC.source = SOURCE.OTHER ∧
    (written (pollBody stLTE msgC (envOk.step 0)).2 = [] ∧
    checked (pollBody stLTE msgC (envOk.step 0)).2 = [] ∧
    (pollBody stLTE msgC (envOk.step 0)).1.curSource = stLTE.curSource ∧
    (pollBody stLTE msgC (envOk.step 0)).1.ttagSource = stLTE.ttagSource ∧
    (stLTE.online = true →
      (pollBody stLTE msgC (envOk.step 0)).2
        = Event.pushRawData msgC.payload :: deleteArr msgC.data) ∧
    (stLTE.online = false →
      (pollBody stLTE msgC (envOk.step 0)).2 = deleteArr msgC.data ∧
      pushed (pollBody stLTE msgC (envOk.step 0)).2 = [] ∧
      (pollBody stLTE msgC (envOk.step 0)).1.online = false)) :=
  ⟨rfl, C12_other_not_arbitrated_amended stLTE msgC (envOk.step 0) rfl⟩

/-- The arbitration writes `ttagSource[source]` and no other entry, in every branch. -/
theorem check_ttag (g : GNSS) (s : SOURCE) (m1 m2 : Nat) (ok : Bool)
    (hs : s.toNat < NUM_SOURCE) :
    (checkSpartanUseSourceCfg g s m1 m2 ok).1.ttagSource
      = Function.update g.ttagSource ⟨s.toNat, hs⟩ (toLong m2) := by
  by_cases hp : GNSS_SPARTAN_USESOURCE g.curSource ≠ GNSS_SPARTAN_USESOURCE s ∧
      (g.curSource = SOURCE.LBAND ∨ TIMEOUT_SRC g.ttagSource (toLong m1) g.curSource = true)
  · rw [check_permitted g s m1 m2 ok hs hp.1 hp.2]
  · rw [check_refused g s m1 m2 ok hs hp]

/-- C15, as stated, fails: in a `poll` of three queued buffers whose second push fails, the
third buffer, from the arbitration-relevant source `LTE`, is dequeued while the object is
offline: `checkSpartanUseSourceCfg` is not called for it and its bytes are not forwarded
with `pushRawData`. -/
theorem C15_write_failure_counterexample :
    msgD.source = SOURCE.LTE ∧ msgD.payload = [40] ∧
    checked (poll { stLTE with queue := [msgA, msgB, msgD] } envFail).2
      = [SOURCE.WLAN, SOURCE.LBAND] ∧
    pushed (poll { stLTE with queue := [msgA, msgB, msgD] } envFail).2
      = [[10, 11], [20, 21, 22]] ∧
    (pollBody { stLTE with online := false } msgD (envFail.step 2)).2 = [Event.delete 11] := by
  decide

/-- C15, amended. A reconfiguration-write failure is not fatal for the pipeline: for every
dequeued message from an arbitration-relevant source that is processed while the object is
online, `poll` runs the arbitration, with any use-source write, before `pushRawData`;
whether or not that write succeeds the bytes of the message are still forwarded with
`pushRawData`, and `online` after the message equals the result of that `pushRawData` alone.
A message dequeued while the object is offline (a push failed earlier in the same `poll`) is
released without arbitration and without being forwarded. -/
theorem C15_write_failure_not_fatal_amended (g : GNSS) (msg : MSG) (s : Step)
    (hsrc : msg.source ≠ SOURCE.OTHER) :
    (g.online = true →
      (pollBody g msg s).2 =
        Event.checkSource msg.source ::
          ((checkSpartanUseSourceCfg g msg.source s.m1 s.m2 s.setValOk).2 ++
            [Event.pushRawData msg.payload] ++ deleteArr msg.data) ∧
      ((checkSpartanUseSourceCfg g msg.source s.m1 s.m2 s.setValOk).2 = [] ∨
        (checkSpartanUseSourceCfg g msg.source s.m1 s.m2 s.setValOk).2
          = [Event.setVal8 (GNSS_SPARTAN_USESOURCE msg.source)]) ∧
      pushed (pollBody g msg s).2 = [msg.payload] ∧
      (pollBody g msg s).1.online = s.pushOk ∧
      pushed (pollBody g msg { s with setValOk := !s.setValOk }).2 = [msg.payload] ∧
      (pollBody g msg { s with setValOk := !s.setValOk }).1.online = s.pushOk) ∧
    (g.online = false → pollBody g msg s = (g, deleteArr msg.data)) := by
  refine ⟨?_, fun hoff => pollBody_offline g msg s hoff⟩
  intro hon
  have hb := pollBody_online g msg s hon
  have hb2 := pollBody_online g msg { s with setValOk := !s.setValOk } hon
  refine ⟨?_, check_events g msg.source s.m1 s.m2 s.setValOk, hb.2.2.1, hb.1, hb2.2.2.1, hb2.1⟩
  simp [pollBody, hon, hsrc]

/-- C15 amended, at a concrete input: the LBAND message of the examples while LTE is active
and the object online. -/
theorem C15_write_failure_not_fatal_amended_witness :
    msgB.source ≠ SOURCE.OTHER ∧
    ((stLTE.online = true →
      (pollBody stLTE msgB (envOk.step 0)).2 =
        Event.checkSource msgB.source ::
          ((checkSpartanUseSourceCfg stLTE msgB.source (envOk.step 0).m1 (envOk.step 0).m2
              (envOk.step 0).setValOk).2 ++
            [Event.pushRawData msgB.payload] ++ deleteArr msgB.data) ∧
      ((checkSpartanUseSourceCfg stLTE msgB.source (envOk.step 0).m1 (envOk.step 0).m2
          (envOk.step 0).setValOk).2 = [] ∨
        (checkSpartanUseSourceCfg stLTE msgB.source (envOk.step 0).m1 (envOk.step 0).m2
          (envOk.step 0).setValOk).2 = [Event.setVal8 (GNSS_SPARTAN_USESOURCE msgB.source)]) ∧
      pushed (pollBody stLTE msgB (envOk.step 0)).2 = [msgB.payload] ∧
      (pollBody stLTE msgB (envOk.step 0)).1.online = (envOk.step 0).pushOk ∧
      pushed (pollBody stLTE msgB
        { envOk.step 0 with setValOk := !(envOk.step 0).setValOk }).2 = [msgB.payload] ∧
      (pollBody stLTE msgB
        { envOk.step 0 with setValOk := !(envOk.step 0).setValOk }).1.online
          = (envOk.step 0).pushOk) ∧
    (stLTE.online = false →
      pollBody stLTE msgB (envOk.step 0) = (stLTE, deleteArr msgB.data))) :=
  ⟨by decide, C15_write_failure_not_fatal_amended stLTE msgB (envOk.step 0) (by decide)⟩

/-- C16. Liveness-table frame: for every state and every arbitration-relevant source `s`,
`checkSpartanUseSourceCfg(s)` sets `ttagSource[s]` to the clock reading and leaves the
`ttagSource` entries of the other two sources unchanged, whatever the switching decision and
whatever the outcome of the receiver write. -/
theorem C16_liveness_frame (g : GNSS) (s : SOURCE) (m1 m2 : Nat) (ok : Bool)
    (hs : s.toNat < NUM_SOURCE) :
    (checkSpartanUseSourceCfg g s m1 m2 ok).1.ttagSource ⟨s.toNat, hs⟩ = toLong m2 ∧
    ∀ i : Fin 3, i ≠ ⟨s.toNat, hs⟩ →
      (checkSpartanUseSourceCfg g s m1 m2 ok).1.ttagSource i = g.ttagSource i := by
  rw [check_ttag g s m1 m2 ok hs]
  exact ⟨Function.update_same _ _ _, fun i hi => Function.update_noteq hi _ _⟩

/-- C16, at a concrete input: an LBAND message at 13001 ms while LTE is active (a switch). -/
theorem C16_liveness_frame_witness :
    (checkSpartanUseSourceCfg stLTE SOURCE.LBAND 13001 13002 true).1.ttagSource
      ⟨SOURCE.LBAND.toNat, by decide⟩ = toLong (13002 : Nat) ∧
    ∀ i : Fin 3, i ≠ ⟨SOURCE.LBAND.toNat, by decide⟩ →
      (checkSpartanUseSourceCfg stLTE SOURCE.LBAND 13001 13002 true).1.ttagSource i
        = stLTE.ttagSource i :=
  C16_liveness_frame stLTE SOURCE.LBAND 13001 13002 true (by decide)

/-- The time-out test reads the table only at the entry of the active source. -/
theorem TIMEOUT_SRC_congr (g g2 : GNSS) (now : Int) (hc : g.curSource = g2.curSource)
    (ht : g.ttagCur = g2.ttagCur) :
    TIMEOUT_SRC g.ttagSource now g.curSource = TIMEOUT_SRC g2.ttagSource now g2.curSource := by
  unfold GNSS.ttagCur at ht
  unfold TIMEOUT_SRC
  by_cases h : g.curSource.toNat < NUM_SOURCE
  · have h2 : g2.curSource.toNat < NUM_SOURCE := hc ▸ h
    rw [dif_pos h] at ht
    rw [dif_pos h2] at ht
    rw [dif_pos h, dif_pos h2, ht]
  · have h2 : ¬ g2.curSource.toNat < NUM_SOURCE := hc ▸ h
    rw [dif_neg h, dif_neg h2]

/-- C18. The grace period is tied to the active source only: with `curSource` WLAN or LTE
and `now - ttagSource[curSource] > 12000`, `checkSpartanUseSourceCfg(LBAND)` issues the
mode-1 write whatever the other entries of `ttagSource` are; and the receiver write issued
by `checkSpartanUseSourceCfg(s)` is the same in any two states that agree on `curSource`
and on `ttagSource[curSource]`, for the same `now` and the same message source. -/
theorem C18_grace_tied_to_active (g g2 : GNSS) (s : SOURCE) (m1 m2 n2 : Nat) (ok ok2 : Bool)
    (hc : g.curSource = g2.curSource) (ht : g.ttagCur = g2.ttagCur) :
    ((g.curSource = SOURCE.WLAN ∨ g.curSource = SOURCE.LTE) →
      toLong (toLong m1 - g.ttagCur) > 12000 →
      (checkSpartanUseSourceCfg g SOURCE.LBAND m1 m2 ok).2 = [Event.setVal8 1] ∧
      (checkSpartanUseSourceCfg g2 SOURCE.LBAND m1 n2 ok2).2 = [Event.setVal8 1]) ∧
    (checkSpartanUseSourceCfg g s m1 m2 ok).2 = (checkSpartanUseSourceCfg g2 s m1 n2 ok2).2 := by
  have hT := TIMEOUT_SRC_congr g g2 (toLong m1) hc ht
  have key : ∀ s : SOURCE,
      (checkSpartanUseSourceCfg g s m1 m2 ok).2 = (checkSpartanUseSourceCfg g2 s m1 n2 ok2).2 := by
    intro s
    by_cases hs : s.toNat < NUM_SOURCE
    · by_cases hp : GNSS_SPARTAN_USESOURCE g.curSource ≠ GNSS_SPARTAN_USESOURCE s ∧
          (g.curSource = SOURCE.LBAND ∨ TIMEOUT_SRC g.ttagSource (toLong m1) g.curSource = true)
      · have hp2 : GNSS_SPARTAN_USESOURCE g2.curSource ≠ GNSS_SPARTAN_USESOURCE s ∧
            (g2.curSource = SOURCE.LBAND ∨
              TIMEOUT_SRC g2.ttagSource (toLong m1) g2.curSource = true) := by
          rw [← hT, ← hc]; exact hp
        rw [check_permitted g s m1 m2 ok hs hp.1 hp.2,
          check_permitted g2 s m1 n2 ok2 hs hp2.1 hp2.2]
      · have hp2 : ¬ (GNSS_SPARTAN_USESOURCE g2.curSource ≠ GNSS_SPARTAN_USESOURCE s ∧
            (g2.curSource = SOURCE.LBAND ∨
              TIMEOUT_SRC g2.ttagSource (toLong m1) g2.curSource = true)) := by
          rw [← hT, ← hc]; exact hp
        rw [check_refused g s m1 m2 ok hs hp, check_refused g2 s m1 n2 ok2 hs hp2]
    · rw [check_not_relevant g s m1 m2 ok hs, check_not_relevant g2 s m1 n2 ok2 hs]
  refine ⟨?_, key s⟩
  intro hcur hd
  have hw : (checkSpartanUseSourceCfg g SOURCE.LBAND m1 m2 ok).2 = [Event.setVal8 1] := by
    have hmode : GNSS_SPARTAN_USESOURCE g.curSource ≠ GNSS_SPARTAN_USESOURCE SOURCE.LBAND := by
      rcases hcur with h | h <;> rw [h] <;> decide
    rw [check_permitted g SOURCE.LBAND m1 m2 ok (by decide) hmode
      (Or.inr ((TIMEOUT_SRC_terrestrial g (toLong m1) hcur).2 hd))]
    rfl
  exact ⟨hw, (key SOURCE.LBAND).symm.trans hw⟩

/-- C18, at a concrete input: WLAN active and last seen at 1000 ms; in the second state LTE
was seen at 13000 ms, 500 ms before the LBAND message at 13500 ms. -/
theorem C18_grace_tied_to_active_witness :
    stWLAN.curSource = stStale.curSource ∧ stWLAN.ttagCur = stStale.ttagCur ∧
    (((stWLAN.curSource = SOURCE.WLAN ∨ stWLAN.curSource = SOURCE.LTE) →
      toLong (toLong (13500 : Nat) - stWLAN.ttagCur) > 12000 →
      (checkSpartanUseSourceCfg stWLAN SOURCE.LBAND 13500 13500 true).2 = [Event.setVal8 1] ∧
      (checkSpartanUseSourceCfg stStale SOURCE.LBAND 13500 13500 true).2
        = [Event.setVal8 1]) ∧
    (checkSpartanUseSourceCfg stWLAN SOURCE.LBAND 13500 13500 true).2
      = (checkSpartanUseSourceCfg stStale SOURCE.LBAND 13500 13500 true).2) :=
  ⟨rfl, rfl,
    C18_grace_tied_to_active stWLAN stStale SOURCE.LBAND 13500 13500 13500 true true rfl rfl⟩

/-- C20. The time-out test is wrap-around safe: with 32-bit time stamps and the subtraction
of `TIMEOUT_SRC` taken modulo 2^32 as a signed value, for every source `src < NUM_SOURCE`,
every stored `ttagSource[src]` and every true elapsed time `e` with `0 ≤ e < 2^31`,
`TIMEOUT_SRC` at the reading `ttagSource[src] + e` (wrapped) holds if and only if
`e > 12000`, also when the counter wraps between the two readings; for `OTHER` it holds
unconditionally. -/
theorem C20_timeout_wrap_safe (t : Fin 3 → Int) (src : SOURCE) (e : Int)
    (hs : src.toNat < NUM_SOURCE) (h0 : 0 ≤ e) (h1 : e < 2147483648) :
    (TIMEOUT_SRC t (toLong (t ⟨src.toNat, hs⟩ + e)) src = true ↔ e > 12000) ∧
    ∀ now : Int, TIMEOUT_SRC t now SOURCE.OTHER = true := by
  refine ⟨?_, fun now => rfl⟩
  have hw : toLong (toLong (t ⟨src.toNat, hs⟩ + e) - t ⟨src.toNat, hs⟩) = e := by
    unfold toLong
    omega
  unfold TIMEOUT_SRC
  rw [dif_pos hs, hw]
  simp [GNSS_CORRECTION_TIMEOUT]

/-- C20, at a concrete input: LTE last seen 1000 ms before the counter wraps, read 12001 ms
later (after the wrap). -/
theorem C20_timeout_wrap_safe_witness :
    (0 : Int) ≤ 12001 ∧ (12001 : Int) < 2147483648 ∧
    ((TIMEOUT_SRC (fun _ => 2147482648)
        (toLong ((fun _ => 2147482648 : Fin 3 → Int) ⟨SOURCE.LTE.toNat, by decide⟩ + 12001))
        SOURCE.LTE = true ↔ (12001 : Int) > 12000) ∧
    ∀ now : Int, TIMEOUT_SRC (fun _ => 2147482648) now SOURCE.OTHER = true) :=
  ⟨by decide, by decide,
    C20_timeout_wrap_safe (fun _ => 2147482648) SOURCE.LTE 12001 (by decide) (by decide)
      (by decide)⟩

/-! ## Claims on sequences of arbitration calls -/

/-- Wrapping the minuend first does not change a wrapped difference. -/
theorem toLong_sub_left (a b : Int) : toLong (toLong a - b) = toLong (a - b) := by
  unfold toLong
  omega

/-- Wrapping a summand first does not change a wrapped sum. -/
theorem toLong_add_left (a d : Int) : toLong (toLong a + d) = toLong (a + d) := by
  unfold toLong
  omega

/-- A value in the range of `long` is not changed by the conversion. -/
theorem toLong_of_range (y : Int) (h1 : -2147483648 ≤ y) (h2 : y < 2147483648) :
    toLong y = y := by
  unfold toLong
  omega

/-- If the elapsed time measured at one reading exceeds the time-out and `d` more
milliseconds do not take it past 2^31, it still exceeds the time-out `d` ms later. -/
theorem elapsed_later (x t d : Int) (hd : 0 ≤ d) (h1 : toLong (x - t) > 12000)
    (h2 : toLong (x - t) + d < 2147483648) : toLong (toLong (x + d) - t) > 12000 := by
  have e1 : toLong (toLong (x + d) - t) = toLong (toLong (x - t) + d) := by
    rw [toLong_sub_left, toLong_add_left]
    congr 1
    omega
  rw [e1, toLong_of_range _ (by omega) h2]
  omega

/-- C14, as stated, fails: WLAN is active and was last seen at -100 ms; an LBAND message at
2147483448 ms attempts the write, which is rejected; the next LBAND message, at the later
time 2147483647 ms, attempts no write (the 32-bit difference has wrapped to a negative
value) and `curSource` does not become LBAND. -/
theorem C14_self_heal_counterexample :
    (checkSpartanUseSourceCfg stOld SOURCE.LBAND 2147483448 2147483448 false).2
      = [Event.setVal8 1] ∧
    toLong (2147483448 : Nat) ≤ toLong (2147483647 : Nat) ∧
    (checkSpartanUseSourceCfg
      (checkSpartanUseSourceCfg stOld SOURCE.LBAND 2147483448 2147483448 false).1
      SOURCE.LBAND 2147483647 2147483647 true).2 = [] ∧
    (checkSpartanUseSourceCfg
      (checkSpartanUseSourceCfg stOld SOURCE.LBAND 2147483448 2147483448 false).1
      SOURCE.LBAND 2147483647 2147483647 true).1.curSource ≠ SOURCE.LBAND := by
  decide

/-- C14, amended. If `checkSpartanUseSourceCfg(s)` at time `t` attempts the use-source write
and the receiver rejects it, then the next call `checkSpartanUseSourceCfg(s)`, `d ≥ 0` ms
later (no message from another source in between), attempts the same write again and, if it
is then accepted, `curSource` becomes `s`, provided `curSource` is LBAND or OTHER or the
32-bit elapsed time of the active source has not wrapped (its value at `t` plus `d` is below
2^31 ms). -/
theorem C14_self_heal_amended (g : GNSS) (s : SOURCE) (m1 m2 n1 n2 : Nat) (ok : Bool) (d : Int)
    (hs : s.toNat < NUM_SOURCE)
    (hmode : GNSS_SPARTAN_USESOURCE g.curSource ≠ GNSS_SPARTAN_USESOURCE s)
    (hperm : g.curSource = SOURCE.LBAND ∨
      TIMEOUT_SRC g.ttagSource (toLong m1) g.curSource = true)
    (hd : 0 ≤ d) (hclock : toLong n1 = toLong (toLong m1 + d))
    (hnear : g.curSource = SOURCE.LBAND ∨ g.curSource = SOURCE.OTHER ∨
      toLong (toLong m1 - g.ttagCur) + d < 2147483648) :
    (checkSpartanUseSourceCfg g s m1 m2 false).2 = [Event.setVal8 (GNSS_SPARTAN_USESOURCE s)] ∧
    (checkSpartanUseSourceCfg (checkSpartanUseSourceCfg g s m1 m2 false).1 s n1 n2 ok).2
      = [Event.setVal8 (GNSS_SPARTAN_USESOURCE s)] ∧
    (ok = true →
      (checkSpartanUseSourceCfg (checkSpartanUseSourceCfg g s m1 m2 false).1 s n1 n2 ok).1.curSource
        = s) := by
  have hne : s ≠ g.curSource := (ne_of_mode_ne _ _ hmode).symm
  have h1 : checkSpartanUseSourceCfg g s m1 m2 false =
      ({ g with ttagSource := Function.update g.ttagSource ⟨s.toNat, hs⟩ (toLong m2) },
        [Event.setVal8 (GNSS_SPARTAN_USESOURCE s)]) := by
    rw [check_permitted g s m1 m2 false hs hmode hperm]
    simp
  rw [h1]
  have hperm2 : g.curSource = SOURCE.LBAND ∨
      TIMEOUT_SRC (Function.update g.ttagSource ⟨s.toNat, hs⟩ (toLong m2)) (toLong n1)
        g.curSource = true := by
    rw [TIMEOUT_SRC_update g.ttagSource (toLong n1) (toLong m2) s g.curSource hs hne]
    cases hcur : g.curSource with
    | LBAND => exact Or.inl rfl
    | OTHER => exact Or.inr rfl
    | WLAN =>
      right
      have hter : g.curSource = SOURCE.WLAN ∨ g.curSource = SOURCE.LTE := Or.inl hcur
      have hfirst : toLong (toLong m1 - g.ttagCur) > 12000 := by
        rcases hperm with h | h
        · rw [hcur] at h; cases h
        · exact (TIMEOUT_SRC_terrestrial g (toLong m1) hter).1 h
      have hn : toLong (toLong m1 - g.ttagCur) + d < 2147483648 := by
        rcases hnear with h | h | h
        · rw [hcur] at h; cases h
        · rw [hcur] at h; cases h
        · exact h
      have := (TIMEOUT_SRC_terrestrial g (toLong n1) hter).2 (by
        rw [hclock]
        exact elapsed_later (toLong m1) g.ttagCur d hd hfirst hn)
      rw [hcur] at this
      exact this
    | LTE =>
      right
      have hter : g.curSource = SOURCE.WLAN ∨ g.curSource = SOURCE.LTE := Or.inr hcur
      have hfirst : toLong (toLong m1 - g.ttagCur) > 12000 := by
        rcases hperm with h | h
        · rw [hcur] at h; cases h
        · exact (TIMEOUT_SRC_terrestrial g (toLong m1) hter).1 h
      have hn : toLong (toLong m1 - g.ttagCur) + d < 2147483648 := by
        rcases hnear with h | h | h
        · rw [hcur] at h; cases h
        · rw [hcur] at h; cases h
        · exact h
      have := (TIMEOUT_SRC_terrestrial g (toLong n1) hter).2 (by
        rw [hclock]
        exact elapsed_later (toLong m1) g.ttagCur d hd hfirst hn)
      rw [hcur] at this
      exact this
  have h2 := check_permitted
    { g with ttagSource := Function.update g.ttagSource ⟨s.toNat, hs⟩ (toLong m2) }
    s n1 n2 ok hs hmode hperm2
  rw [h2]
  refine ⟨rfl, rfl, ?_⟩
  intro hok
  simp [hok]

/-- C14 amended, at a concrete input: LTE active and last seen at 1000 ms, an LBAND message
at 13001 ms whose write is rejected, the next LBAND message 50 ms later. -/
theorem C14_self_heal_amended_witness :
    GNSS_SPARTAN_USESOURCE stLTE.curSource ≠ GNSS_SPARTAN_USESOURCE SOURCE.LBAND ∧
    (stLTE.curSource = SOURCE.LBAND ∨
      TIMEOUT_SRC stLTE.ttagSource (toLong (13001 : Nat)) stLTE.curSource = true) ∧
    (0 : Int) ≤ 50 ∧ toLong (13051 : Nat) = toLong (toLong (13001 : Nat) + 50) ∧
    (stLTE.curSource = SOURCE.LBAND ∨ stLTE.curSource = SOURCE.OTHER ∨
      toLong (toLong (13001 : Nat) - stLTE.ttagCur) + 50 < 2147483648) ∧
    ((checkSpartanUseSourceCfg stLTE SOURCE.LBAND 13001 13001 false).2
      = [Event.setVal8 (GNSS_SPARTAN_USESOURCE SOURCE.LBAND)] ∧
    (checkSpartanUseSourceCfg (checkSpartanUseSourceCfg stLTE SOURCE.LBAND 13001 13001 false).1
      SOURCE.LBAND 13051 13051 true).2 = [Event.setVal8 (GNSS_SPARTAN_USESOURCE SOURCE.LBAND)] ∧
    (true = true →
      (checkSpartanUseSourceCfg (checkSpartanUseSourceCfg stLTE SOURCE.LBAND 13001 13001 false).1
        SOURCE.LBAND 13051 13051 true).1.curSource = SOURCE.LBAND)) :=
  ⟨by decide, Or.inr (by decide), by decide, by decide, Or.inr (Or.inr (by decide)),
    C14_self_heal_amended stLTE SOURCE.LBAND 13001 13001 13051 13051 true 50 (by decide)
      (by decide) (Or.inr (by decide)) (by decide) (by decide) (Or.inr (Or.inr (by decide)))⟩

/-- One call of the arbitration, in the three cases of the function: the source has no table
entry, the switch is refused, the switch is permitted. -/
theorem check_cases (g : GNSS) (s : SOURCE) (m1 m2 : Nat) (ok : Bool) :
    ((checkSpartanUseSourceCfg g s m1 m2 ok).2 = [] ∧
      (checkSpartanUseSourceCfg g s m1 m2 ok).1.curSource = g.curSource) ∨
    ((checkSpartanUseSourceCfg g s m1 m2 ok).2 = [Event.setVal8 (GNSS_SPARTAN_USESOURCE s)] ∧
      (checkSpartanUseSourceCfg g s m1 m2 ok).1.curSource = (if ok then s else g.curSource) ∧
      GNSS_SPARTAN_USESOURCE g.curSource ≠ GNSS_SPARTAN_USESOURCE s) := by
  by_cases hs : s.toNat < NUM_SOURCE
  · by_cases hp : GNSS_SPARTAN_USESOURCE g.curSource ≠ GNSS_SPARTAN_USESOURCE s ∧
        (g.curSource = SOURCE.LBAND ∨ TIMEOUT_SRC g.ttagSource (toLong m1) g.curSource = true)
    · rw [check_permitted g s m1 m2 ok hs hp.1 hp.2]
      exact Or.inr ⟨rfl, rfl, hp.1⟩
    · rw [check_refused g s m1 m2 ok hs hp]
      exact Or.inl ⟨rfl, rfl⟩
  · rw [check_not_relevant g s m1 m2 ok hs]
    exact Or.inl ⟨rfl, rfl⟩

/-- A call keeps the register equal to the mode of the active source. -/
theorem call_reg (st : ArbState) (c : ArbCall)
    (h : st.reg = GNSS_SPARTAN_USESOURCE st.g.curSource) :
    (st.call c).reg = GNSS_SPARTAN_USESOURCE (st.call c).g.curSource := by
  unfold ArbState.call
  rcases check_cases st.g c.source c.m1 c.m2 c.ok with ⟨he, hc⟩ | ⟨he, hc, _⟩
  · simp only [he, hc]
    exact h
  · simp only [he, hc]
    cases hok : c.ok
    · simpa [written, regAfter] using h
    · simp [written, regAfter]

/-- A sequence of calls keeps the register equal to the mode of the active source. -/
theorem run_reg (cs : List ArbCall) (st : ArbState)
    (h : st.reg = GNSS_SPARTAN_USESOURCE st.g.curSource) :
    (st.run cs).reg = GNSS_SPARTAN_USESOURCE (st.run cs).g.curSource := by
  induction cs generalizing st with
  | nil => exact h
  | cons c cs ih => exact ih (st.call c) (call_reg st c h)

/-- C17. The configured receiver mode always matches the arbitration state: with the
use-source register of the receiver starting at 0 and changing only on an accepted `setVal8`
write, after every sequence of `checkSpartanUseSourceCfg` calls with arbitrary write
outcomes, starting from the constructor state, the register equals
`GNSS_SPARTAN_USESOURCE(curSource)`; and a call changes `curSource` only when its write is
accepted. -/
theorem C17_register_matches_state (m : Nat) (cs : List ArbCall) :
    ((ArbState.init m).run cs).reg
      = GNSS_SPARTAN_USESOURCE ((ArbState.init m).run cs).g.curSource ∧
    ∀ c : ArbCall, (((ArbState.init m).run cs).call c).g.curSource
        ≠ ((ArbState.init m).run cs).g.curSource →
      c.ok = true ∧
      (((ArbState.init m).run cs).call c).reg = GNSS_SPARTAN_USESOURCE c.source ∧
      (((ArbState.init m).run cs).call c).g.curSource = c.source := by
  have hinv := run_reg cs (ArbState.init m) rfl
  refine ⟨hinv, ?_⟩
  intro c hne
  have hreg := call_reg ((ArbState.init m).run cs) c hinv
  have hcases := check_cases ((ArbState.init m).run cs).g c.source c.m1 c.m2 c.ok
  have hcur : (((ArbState.init m).run cs).call c).g.curSource =
      (checkSpartanUseSourceCfg ((ArbState.init m).run cs).g c.source c.m1 c.m2 c.ok).1.curSource :=
    rfl
  rw [hcur] at hne
  rcases hcases with ⟨_, hc⟩ | ⟨_, hc, _⟩
  · exact absurd hc hne
  · cases hok : c.ok
    · rw [hc, hok] at hne
      exact absurd rfl hne
    · have hs : (((ArbState.init m).run cs).call c).g.curSource = c.source := by
        rw [hcur, hc, hok]; rfl
      refine ⟨rfl, ?_, hs⟩
      rw [hreg, hs]

/-- A call for a source other than `LBAND` in a state whose active source is `OTHER` writes
nothing and leaves `OTHER` active. -/
theorem call_terrestrial (st : ArbState) (c : ArbCall) (hsrc : c.source ≠ SOURCE.LBAND)
    (h : st.g.curSource = SOURCE.OTHER ∧ written st.events = []) :
    (st.call c).g.curSource = SOURCE.OTHER ∧ written (st.call c).events = [] := by
  have hmode : GNSS_SPARTAN_USESOURCE st.g.curSource = GNSS_SPARTAN_USESOURCE c.source := by
    rw [h.1]
    simp [GNSS_SPARTAN_USESOURCE, hsrc]
  unfold ArbState.call
  rcases check_cases st.g c.source c.m1 c.m2 c.ok with ⟨he, hc⟩ | ⟨_, _, hm⟩
  · simp only [he, hc, List.append_nil]
    exact h
  · exact absurd hmode hm

/-- A sequence of calls for sources other than `LBAND`, from a state whose active source is
`OTHER`. -/
theorem run_terrestrial (cs : List ArbCall) (st : ArbState)
    (hsrc : ∀ c ∈ cs, c.source ≠ SOURCE.LBAND)
    (h : st.g.curSource = SOURCE.OTHER ∧ written st.events = []) :
    (st.run cs).g.curSource = SOURCE.OTHER ∧ written (st.run cs).events = [] := by
  induction cs generalizing st with
  | nil => exact h
  | cons c cs ih =>
    exact ih (st.call c) (fun x hx => hsrc x (List.mem_cons_of_mem c hx))
      (call_terrestrial st c (hsrc c (List.mem_cons_self c cs)) h)

/-- C19. No grace period before the first satellite switch: starting from the constructor
state (`curSource = OTHER`), after every finite sequence of WLAN, LTE and OTHER messages
processed at arbitrary times no use-source write has been issued and `curSource` is still
`OTHER`, and a following LBAND message at any time issues the mode-1 write. -/
theorem C19_no_grace_before_first_switch (m : Nat) (cs : List ArbCall)
    (hsrc : ∀ c ∈ cs, c.source ≠ SOURCE.LBAND) :
    written ((ArbState.init m).run cs).events = [] ∧
    ((ArbState.init m).run cs).g.curSource = SOURCE.OTHER ∧
    ∀ (m1 m2 : Nat) (ok : Bool),
      (checkSpartanUseSourceCfg ((ArbState.init m).run cs).g SOURCE.LBAND m1 m2 ok).2
        = [Event.setVal8 1] := by
  have h := run_terrestrial cs (ArbState.init m) hsrc ⟨rfl, rfl⟩
  refine ⟨h.2, h.1, ?_⟩
  intro m1 m2 ok
  rw [check_permitted _ SOURCE.LBAND m1 m2 ok (by decide) (by rw [h.1]; decide)
    (Or.inr (by rw [h.1]; rfl))]
  rfl

/-- C19, at a concrete input: WLAN, OTHER and LTE messages after start-up, then LBAND. -/
theorem C19_no_grace_before_first_switch_witness :
    (∀ c ∈ callsTerrestrial, c.source ≠ SOURCE.LBAND) ∧
    (written ((ArbState.init 0).run callsTerrestrial).events = [] ∧
    ((ArbState.init 0).run callsTerrestrial).g.curSource = SOURCE.OTHER ∧
    ∀ (m1 m2 : Nat) (ok : Bool),
      (checkSpartanUseSourceCfg ((ArbState.init 0).run callsTerrestrial).g
          SOURCE.LBAND m1 m2 ok).2 = [Event.setVal8 1]) :=
  ⟨by decide, C19_no_grace_before_first_switch 0 callsTerrestrial (by decide)⟩

/-! ## Exactly-once release of buffers -/

/-- The allocations of two runs in sequence. -/
theorem allocated_append (a b : List Event) :
    allocated (a ++ b) = allocated a ++ allocated b := by
  simp [allocated]

/-- The allocations of a run, first event apart. -/
theorem allocated_cons (e : Event) (es : List Event) :
    allocated (e :: es) = allocated [e] ++ allocated es :=
  allocated_append [e] es

/-- The arbitration allocates and releases nothing. -/
theorem check_events_heap (g : GNSS) (s : SOURCE) (m1 m2 : Nat) (ok : Bool) :
    allocated (checkSpartanUseSourceCfg g s m1 m2 ok).2 = [] ∧
    deleted (checkSpartanUseSourceCfg g s m1 m2 ok).2 = [] := by
  rcases check_events g s m1 m2 ok with h | h <;> rw [h] <;> exact ⟨rfl, rfl⟩

/-- A `delete []` allocates nothing. -/
theorem deleteArr_allocated (d : Option Buffer) : allocated (deleteArr d) = [] := by
  cases d <;> rfl

/-- The loop body, online or not, releases the block of the dequeued message, allocates
nothing and leaves the queue alone. -/
theorem pollBody_heap (g : GNSS) (msg : MSG) (s : Step) :
    allocated (pollBody g msg s).2 = [] ∧
    deleted (pollBody g msg s).2 = buffers [msg] ∧
    (pollBody g msg s).1.queue = g.queue := by
  have hda := deleteArr_allocated msg.data
  have hd := deleteArr_proj msg.data
  have hb : buffers [msg] = (msg.data.map Buffer.addr).toList := by
    rw [buffers_cons]; simp [buffers]
  cases hon : g.online
  · rw [pollBody_offline g msg s hon]
    exact ⟨hda, hd.2.2.2.trans hb.symm, rfl⟩
  · have ho := pollBody_online g msg s hon
    refine ⟨?_, ho.2.2.2.2, ho.2.1⟩
    have hc := check_events_heap g msg.source s.m1 s.m2 s.setValOk
    unfold pollBody
    rw [if_pos hon]
    by_cases hs : msg.source = SOURCE.OTHER
    · rw [if_neg (not_not.mpr hs), allocated_append, hda]
      rfl
    · rw [if_pos hs, allocated_append, allocated_append, hda, allocated_cons, hc.1]
      rfl

/-- The loop releases the block of every queued message, allocates nothing and leaves the
queue empty. -/
theorem pollLoop_heap (step : Nat → Step) (q : List MSG) (k : Nat) (g : GNSS) :
    allocated (pollLoop step q k g).2 = [] ∧ deleted (pollLoop step q k g).2 = buffers q := by
  induction q generalizing k g with
  | nil => exact ⟨rfl, rfl⟩
  | cons m rest ih =>
    have hb := pollBody_heap { g with queue := rest } m (step k)
    have := ih (k + 1) (pollBody { g with queue := rest } m (step k)).1
    rw [pollLoop_cons]
    refine ⟨?_, ?_⟩
    · rw [allocated_append, hb.1, this.1]; rfl
    · rw [deleted_append, hb.2.1, this.2]; exact (buffers_append [m] rest).symm

/-- A call of `inject(MSG&)` with the block `a`: the block is queued, or released. -/
theorem inject_heap (g : GNSS) (msg : MSG) (a : Nat) (bytes : List Byte)
    (h : msg.data = some { addr := a, bytes := bytes }) :
    Produces a [a] (deleted (inject g msg).events) (buffers g.queue)
      (buffers (inject g msg).g.queue) ∧ allocated (inject g msg).events = [] := by
  by_cases hq : g.queue.length < QUEUE_LENGTH
  · rw [inject_free g msg hq]
    refine ⟨Or.inr (Or.inl ⟨rfl, rfl, ?_⟩), rfl⟩
    show buffers (g.queue ++ [msg]) = buffers g.queue ++ [a]
    rw [buffers_append, buffers_cons, h]
    rfl
  · rw [inject_full g msg hq, h]
    exact ⟨Or.inr (Or.inr ⟨rfl, rfl, rfl⟩), rfl⟩

/-- A call of `inject(ptr, len, src)` whose `new` may return the block `a`. -/
theorem injectBytes_heap (g : GNSS) (ptr : List Byte) (len : Nat) (src : SOURCE) (a : Nat)
    (allocOk : Bool) :
    Produces a (allocated (injectBytes g ptr len src (if allocOk then some a else none)).events)
      (deleted (injectBytes g ptr len src (if allocOk then some a else none)).events)
      (buffers g.queue)
      (buffers (injectBytes g ptr len src (if allocOk then some a else none)).g.queue) := by
  cases allocOk
  · exact Or.inl ⟨rfl, rfl, rfl⟩
  · have h := inject_heap g
      { source := src, data := some { addr := a, bytes := memcpy (List.replicate len 0) 0 ptr len },
        size := len } a _ rfl
    simp only [if_true, injectBytes]
    rw [show ∀ es : List Event, allocated (Event.alloc a :: es) = a :: allocated es from
        fun _ => rfl, h.2,
      show ∀ es : List Event, deleted (Event.alloc a :: es) = deleted es from fun _ => rfl]
    exact h.1

/-- A call of `onRXMPMPdata` whose `new` may return the block `a`. -/
theorem onRXMPMPdata_heap (g : GNSS) (pmpData : Option UBX_RXM_PMP_message_data_t) (a : Nat)
    (allocOk : Bool) :
    Produces a (allocated (onRXMPMPdata g pmpData (if allocOk then some a else none)).2)
      (deleted (onRXMPMPdata g pmpData (if allocOk then some a else none)).2)
      (buffers g.queue)
      (buffers (onRXMPMPdata g pmpData (if allocOk then some a else none)).1.queue) := by
  cases pmpData with
  | none => exact Or.inl ⟨rfl, rfl, rfl⟩
  | some p =>
    cases allocOk
    · exact Or.inl ⟨rfl, rfl, rfl⟩
    · have h := inject_heap g (pmpMsg p a) a _ rfl
      simp only [if_true, onRXMPMPdata]
      rw [show ∀ es : List Event, allocated (Event.alloc a :: es) = a :: allocated es from
          fun _ => rfl, h.2,
        show ∀ es : List Event, deleted (Event.alloc a :: es) = deleted es from fun _ => rfl]
      exact h.1

/-- The detection, when the `new` for the key may return the block `a`. -/
theorem detect_heap (g : GNSS) (d : DetectEnv) (a : Nat) (allocOk : Bool)
    (hk : d.keyAddr = if allocOk then some a else none) :
    Produces a (allocated (detect g d).2.2) (deleted (detect g d).2.2) (buffers g.queue)
      (buffers (detect g d).2.1.queue) := by
  unfold detect
  cases d.beginOk
  · exact Or.inl ⟨rfl, rfl, rfl⟩
  · cases hc : d.configOk
    · exact Or.inl ⟨rfl, rfl, rfl⟩
    · by_cases hlen : d.key.length > 0
      · simp only [if_true, if_pos hlen, hk]
        exact injectBytes_heap { g with online := true } d.key d.key.length SOURCE.OTHER a allocOk
      · simp only [if_true, if_neg hlen]
        exact Or.inl ⟨rfl, rfl, rfl⟩

/-- The shape of `poll()`: a detection part `d` (which may inject the key), then the loop if
the object is online. -/
theorem poll_parts (g : GNSS) (env : PollEnv) (a : Nat) (allocOk : Bool)
    (hk : env.det.keyAddr = if allocOk then some a else none) :
    ∃ d : GNSS × List Event,
      Produces a (allocated d.2) (deleted d.2) (buffers g.queue) (buffers d.1.queue) ∧
      poll g env =
        if d.1.online then
          ((pollLoop env.step d.1.queue 0 d.1).1, d.2 ++ (pollLoop env.step d.1.queue 0 d.1).2)
        else d := by
  by_cases ht : g.ttagNextTry ≤ toLong env.now
  · cases hon : g.online
    · refine ⟨((detect { g with ttagNextTry := toLong (toLong env.now + GNSS_DETECT_RETRY) }
          env.det).2.1,
        (detect { g with ttagNextTry := toLong (toLong env.now + GNSS_DETECT_RETRY) }
          env.det).2.2), ?_, ?_⟩
      · exact detect_heap { g with ttagNextTry := toLong (toLong env.now + GNSS_DETECT_RETRY) }
          env.det a allocOk hk
      · simp [poll, ht, hon]
    · obtain ⟨g1, h1, h2, _, _, h5⟩ := poll_online g env hon
      refine ⟨(g1, []), Or.inl ⟨rfl, rfl, by rw [h2]⟩, ?_⟩
      rw [if_pos h1, h5, h2, List.nil_append]
  · refine ⟨(g, []), Or.inl ⟨rfl, rfl, rfl⟩, ?_⟩
    simp [poll, ht]

/-- The heap effect of `poll()`: what the detection produces, then either nothing more or
the release of every queued block, leaving the queue empty. -/
theorem poll_heap (g : GNSS) (env : PollEnv) (a : Nat) (allocOk : Bool)
    (hk : env.det.keyAddr = if allocOk then some a else none) :
    ∃ eA eF q1 : List Nat, Produces a eA eF (buffers g.queue) q1 ∧
      allocated (poll g env).2 = eA ∧
      ((deleted (poll g env).2 = eF ∧ buffers (poll g env).1.queue = q1) ∨
        (deleted (poll g env).2 = eF ++ q1 ∧ buffers (poll g env).1.queue = [])) := by
  obtain ⟨d, hp, he⟩ := poll_parts g env a allocOk hk
  refine ⟨allocated d.2, deleted d.2, buffers d.1.queue, hp, ?_⟩
  rw [he]
  cases hon : d.1.online
  · exact ⟨rfl, Or.inl ⟨rfl, rfl⟩⟩
  · have hl := pollLoop_heap env.step d.1.queue 0 d.1
    have hq := pollLoop_queue env.step d.1.queue 0 d.1 rfl
    simp only [if_true]
    refine ⟨?_, Or.inr ⟨?_, ?_⟩⟩
    · rw [allocated_append, hl.1, List.append_nil]
    · rw [deleted_append, hl.2]
    · rw [hq]; rfl

/-- A producer step keeps the heap discipline. -/
theorem balanced_produce (n : Nat) (A F Q eA eF Q2 : List Nat) (h : Balanced n A F Q)
    (hp : Produces n eA eF Q Q2) : Balanced (n + 1) (A ++ eA) (F ++ eF) Q2 := by
  obtain ⟨hlt, hnd, hperm⟩ := h
  have hn : n ∉ A := fun hm => Nat.lt_irrefl n (hlt n hm)
  have hlt2 : ∀ a ∈ A ++ [n], a < n + 1 := by
    intro a ha
    rcases List.mem_append.1 ha with ha | ha
    · exact Nat.lt_succ_of_lt (hlt a ha)
    · rw [List.mem_singleton.1 ha]; exact Nat.lt_succ_self n
  have hnd2 : (A ++ [n]).Nodup :=
    List.Nodup.append hnd (List.nodup_singleton n)
      (by intro x hx hx2; rw [List.mem_singleton.1 hx2] at hx; exact hn hx)
  rcases hp with ⟨h1, h2, h3⟩ | ⟨h1, h2, h3⟩ | ⟨h1, h2, h3⟩
  · rw [h1, h2, h3, List.append_nil, List.append_nil]
    exact ⟨fun a ha => Nat.lt_succ_of_lt (hlt a ha), hnd, hperm⟩
  · rw [h1, h2, h3, List.append_nil]
    refine ⟨hlt2, hnd2, ?_⟩
    rw [← List.append_assoc]
    exact hperm.append_right [n]
  · rw [h1, h2, h3]
    refine ⟨hlt2, hnd2, ?_⟩
    have hc : List.Perm ((F ++ [n]) ++ Q) ((F ++ Q) ++ [n]) := by
      rw [List.append_assoc, List.append_assoc]
      exact List.Perm.append_left F List.perm_append_comm
    exact hc.trans (hperm.append_right [n])

/-- Draining the queue keeps the heap discipline. -/
theorem balanced_drain (n : Nat) (A F Q : List Nat) (h : Balanced n A F Q) :
    Balanced n A (F ++ Q) [] := by
  obtain ⟨hlt, hnd, hperm⟩ := h
  exact ⟨hlt, hnd, by rw [List.append_nil]; exact hperm⟩

/-- The operation `poll` in a world. -/
theorem World.step_poll (w : World) (env : PollEnv) :
    w.step (Op.poll env) =
      { g := (poll w.g (w.pollEnv env)).1, next := w.next + 1,
        trace := w.trace ++ (poll w.g (w.pollEnv env)).2 } := by
  simp only [World.step]

/-- The key block of a `poll` in a world is the next block of the allocator. -/
theorem World.pollEnv_keyAddr (w : World) (env : PollEnv) :
    (w.pollEnv env).det.keyAddr = if env.det.keyAddr.isSome then some w.next else none := by
  simp only [World.pollEnv, World.fresh]


/-- The heap discipline of a world given by its fields. -/
theorem balanced_world (g : GNSS) (n : Nat) (t : List Event)
    (h : Balanced n (allocated t) (deleted t) (buffers g.queue)) :
    Balanced ({ g := g, next := n, trace := t } : World).next
      (allocated ({ g := g, next := n, trace := t } : World).trace)
      (deleted ({ g := g, next := n, trace := t } : World).trace)
      (buffers ({ g := g, next := n, trace := t } : World).g.queue) :=
  h

/-- Every operation keeps the heap discipline. -/
theorem step_balanced (w : World) (op : Op)
    (h : Balanced w.next (allocated w.trace) (deleted w.trace) (buffers w.g.queue)) :
    Balanced (w.step op).next (allocated (w.step op).trace) (deleted (w.step op).trace)
      (buffers (w.step op).g.queue) := by
  cases op with
  | inject ptr len src allocOk =>
    have hb := balanced_produce _ _ _ _ _ _ _ h (injectBytes_heap w.g ptr len src w.next allocOk)
    show Balanced (w.next + 1)
      (allocated (w.trace ++ (injectBytes w.g ptr len src (w.fresh allocOk)).events))
      (deleted (w.trace ++ (injectBytes w.g ptr len src (w.fresh allocOk)).events))
      (buffers (injectBytes w.g ptr len src (w.fresh allocOk)).g.queue)
    rw [allocated_append, deleted_append]
    exact hb
  | rxmpmp pmpData allocOk =>
    have hb := balanced_produce _ _ _ _ _ _ _ h (onRXMPMPdata_heap w.g pmpData w.next allocOk)
    show Balanced (w.next + 1)
      (allocated (w.trace ++ (onRXMPMPdata w.g pmpData (w.fresh allocOk)).2))
      (deleted (w.trace ++ (onRXMPMPdata w.g pmpData (w.fresh allocOk)).2))
      (buffers (onRXMPMPdata w.g pmpData (w.fresh allocOk)).1.queue)
    rw [allocated_append, deleted_append]
    exact hb
  | poll env =>
    obtain ⟨eA, eF, q1, hp, hA, hr⟩ := poll_heap w.g (w.pollEnv env) w.next
      env.det.keyAddr.isSome (World.pollEnv_keyAddr w env)
    have hb := balanced_produce _ _ _ _ _ _ _ h hp
    rw [World.step_poll]
    generalize poll w.g (w.pollEnv env) = r at hA hr ⊢
    apply balanced_world
    rw [allocated_append, deleted_append, hA]
    rcases hr with ⟨hF, hQ⟩ | ⟨hF, hQ⟩
    · rw [hF, hQ]
      exact hb
    · rw [hF, hQ, ← List.append_assoc]
      exact balanced_drain _ _ _ _ hb

/-- Every sequence of operations keeps the heap discipline. -/
theorem run_balanced (ops : List Op) (w : World)
    (h : Balanced w.next (allocated w.trace) (deleted w.trace) (buffers w.g.queue)) :
    Balanced (w.run ops).next (allocated (w.run ops).trace) (deleted (w.run ops).trace)
      (buffers (w.run ops).g.queue) := by
  induction ops generalizing w with
  | nil => exact h
  | cons op ops ih => exact ih (w.step op) (step_balanced w op h)

/-- The world after the constructor satisfies the heap discipline: nothing is allocated. -/
theorem init_balanced (m : Nat) :
    Balanced (World.init m).next (allocated (World.init m).trace) (deleted (World.init m).trace)
      (buffers (World.init m).g.queue) :=
  ⟨fun _ ha => absurd ha (List.not_mem_nil _), List.nodup_nil, List.Perm.nil⟩

/-- C13. Exactly-once release of buffers: over the model that records allocations and
frees, after every sequence of `inject`, `onRXMPMPdata` and `poll` operations (with any
answers of the receiver, so covering the queue-full, push-success, push-failure and
dequeue-while-offline paths), every block that was allocated is either still held by exactly
one queue slot or has been freed exactly once; no block is freed twice and none is neither
queued nor freed. -/
theorem C13_exactly_once_release (m : Nat) (ops : List Op) :
    (allocated ((World.init m).run ops).trace).Nodup ∧
    List.Perm (deleted ((World.init m).run ops).trace ++ buffers ((World.init m).run ops).g.queue)
      (allocated ((World.init m).run ops).trace) ∧
    (deleted ((World.init m).run ops).trace).Nodup ∧
    (buffers ((World.init m).run ops).g.queue).Nodup ∧
    (∀ a ∈ allocated ((World.init m).run ops).trace,
      (a ∈ deleted ((World.init m).run ops).trace ∧
        a ∉ buffers ((World.init m).run ops).g.queue) ∨
      (a ∉ deleted ((World.init m).run ops).trace ∧
        a ∈ buffers ((World.init m).run ops).g.queue)) ∧
    (∀ a ∈ deleted ((World.init m).run ops).trace,
      a ∈ allocated ((World.init m).run ops).trace) := by
  obtain ⟨_, hnd, hperm⟩ := run_balanced ops (World.init m) (init_balanced m)
  generalize allocated ((World.init m).run ops).trace = A at hnd hperm ⊢
  generalize deleted ((World.init m).run ops).trace = F at hperm ⊢
  generalize buffers ((World.init m).run ops).g.queue = Q at hperm ⊢
  have hfq : (F ++ Q).Nodup := hperm.nodup_iff.2 hnd
  have hparts := List.nodup_append.1 hfq
  refine ⟨hnd, hperm, hparts.1, hparts.2.1, ?_, ?_⟩
  · intro a ha
    have hm : a ∈ F ++ Q := hperm.mem_iff.2 ha
    rcases List.mem_append.1 hm with hf | hq
    · exact Or.inl ⟨hf, fun hq => hparts.2.2 hf hq⟩
    · exact Or.inr ⟨fun hf => hparts.2.2 hf hq, hq⟩
  · intro a ha
    exact hperm.mem_iff.1 (List.mem_append_left Q ha)

/-- The run of the examples: fourteen blocks are allocated (block 2 is the failed `new`),
block 14 is released at once by the `inject` that finds the queue full, the others are
released by the two calls of `poll`, the second of which loses the receiver at its second
push; nothing stays queued. -/
theorem heap_example :
    allocated ((World.init 0).run opsAll).trace = [0, 1, 3, 4, 5, 6, 7, 8, 9, 10, 11, 12, 13, 14] ∧
    deleted ((World.init 0).run opsAll).trace = [0, 1, 3, 14, 4, 5, 6, 7, 8, 9, 10, 11, 12, 13] ∧
    buffers ((World.init 0).run opsAll).g.queue = [] ∧
    pushed ((World.init 0).run opsAll).trace
      = [[1, 2], [181, 98, 2, 114, 3, 0, 1, 2, 3, 9, 10], [7, 8], [5], [5]] ∧
    ((World.init 0).run opsAll).g.online = false := by
  decide

end HPG
